import Mathlib

/-!
# Verification of the GitLab MCP server dispatch layer

Shallow embedding of `src/gitlab/index.ts` (the tool catalog and the
`CallToolRequestSchema` handler) of the `mcp-servers` repository, together
with models of the argument schemas (`schemas.ts`) and of the thin GitLab
API adapters (`gitlab-api.ts`), both imported by `index.ts` but not part of
the source tree; those two modules are modelled from the spec and the
README, as marked on each definition.

The GitLab API itself is abstract: a `GitLabApi` record of functions, one
per adapter, each returning either an opaque failure or a result.  The
handler is a pure function of the request and that record; it additionally
returns the list of API calls it issued, in order, which models the
outgoing HTTP traffic of the thin one-endpoint-per-function adapters.
-/

/-- JSON values, as produced by parsing a GitLab API response body and as
carried in the `arguments` field of an incoming tool-call request. -/
inductive Json where
  | null : Json
  | bool : Bool → Json
  | num : Int → Json
  | str : String → Json
  | arr : List Json → Json
  | obj : List (String × Json) → Json

/-- One character of a JS string, escaped as `JSON.stringify` escapes it. -/
def escapeChar (c : Char) : String :=
  if c = '"' then "\\\""
  else if c = '\\' then "\\\\"
  else if c = '\n' then "\\n"
  else if c = '\t' then "\\t"
  else if c = '\r' then "\\r"
  else String.singleton c

/-- A JS string literal as `JSON.stringify` renders it. -/
def quoteString (s : String) : String :=
  "\"" ++ String.join (s.toList.map escapeChar) ++ "\""

/-- `n` spaces: the indentation produced by `JSON.stringify(v, null, 2)`. -/
def indentStr (n : Nat) : String :=
  String.join (List.replicate n " ")

mutual

/-- `JSON.stringify(v, null, 2)` at nesting depth `ind`: the pretty
serialization the handler applies to every forwarded API result. -/
def jsonStringifyAux (ind : Nat) : Json → String
  | .null => "null"
  | .bool b => if b then "true" else "false"
  | .num n => toString n
  | .str s => quoteString s
  | .arr [] => "[]"
  | .arr (x :: xs) =>
      "[\n" ++ String.intercalate ",\n" (jsonStringifyItems (ind + 2) (x :: xs)) ++
        "\n" ++ indentStr ind ++ "]"
  | .obj [] => "\x7b\x7d"
  | .obj (kv :: kvs) =>
      "\x7b\n" ++ String.intercalate ",\n" (jsonStringifyFields (ind + 2) (kv :: kvs)) ++
        "\n" ++ indentStr ind ++ "\x7d"

/-- Array elements, each on its own indented line. -/
def jsonStringifyItems (ind : Nat) : List Json → List String
  | [] => []
  | x :: xs => (indentStr ind ++ jsonStringifyAux ind x) :: jsonStringifyItems ind xs

/-- Object fields, each on its own indented line. -/
def jsonStringifyFields (ind : Nat) : List (String × Json) → List String
  | [] => []
  | (k, v) :: kvs =>
      (indentStr ind ++ quoteString k ++ ": " ++ jsonStringifyAux ind v) ::
        jsonStringifyFields ind kvs

end

/-- `JSON.stringify(v, null, 2)`, as called at every forwarding site of the
tool-call handler. -/
def jsonStringify (v : Json) : String :=
  jsonStringifyAux 0 v

/-- One Zod validation issue: the path of the offending field and the
issue's message, the two pieces the handler's `catch` joins into the
`Invalid arguments:` report. -/
structure ZodIssue where
  path : List String
  message : String
deriving DecidableEq, Repr

/-- Result of a Zod `.parse`: the parsed arguments, or the full list of
validation issues (Zod reports every issue, not just the first). -/
abbrev ZodResult (α : Type) := Except (List ZodIssue) α

/-- Applicative composition of two field validations, accumulating the
issues of both sides the way Zod's object parsing does. -/
def zodMerge {α β : Type} : ZodResult α → ZodResult β → ZodResult (α × β)
  | .error a, .error b => .error (a ++ b)
  | .error a, .ok _ => .error a
  | .ok _, .error b => .error b
  | .ok x, .ok y => .ok (x, y)

/-- Modelled from the spec: a required `z.string()` field of an object
schema from the missing `schemas.ts`.  Missing key reports `Required`;
a non-string value reports a type issue. `pre` is the path prefix for
nested objects. -/
def requiredStringP (pre : List String) (kvs : List (String × Json)) (k : String) :
    ZodResult String :=
  match List.lookup k kvs with
  | none => .error [⟨pre ++ [k], "Required"⟩]
  | some (.str s) => .ok s
  | some _ => .error [⟨pre ++ [k], "Expected string"⟩]

/-- Modelled from the spec: a required string field at the top level. -/
def requiredString (kvs : List (String × Json)) (k : String) : ZodResult String :=
  requiredStringP [] kvs k

/-- Modelled from the spec: an optional `z.string().optional()` field:
absent is accepted as `none`, present non-strings are rejected. -/
def optionalString (kvs : List (String × Json)) (k : String) :
    ZodResult (Option String) :=
  match List.lookup k kvs with
  | none => .ok none
  | some (.str s) => .ok (some s)
  | some _ => .error [⟨[k], "Expected string"⟩]

/-- Modelled from the spec: an optional `z.number().optional()` field. -/
def optionalNumber (kvs : List (String × Json)) (k : String) :
    ZodResult (Option Int) :=
  match List.lookup k kvs with
  | none => .ok none
  | some (.num n) => .ok (some n)
  | some _ => .error [⟨[k], "Expected number"⟩]

/-- Modelled from the spec: an optional `z.boolean().optional()` field. -/
def optionalBoolean (kvs : List (String × Json)) (k : String) :
    ZodResult (Option Bool) :=
  match List.lookup k kvs with
  | none => .ok none
  | some (.bool b) => .ok (some b)
  | some _ => .error [⟨[k], "Expected boolean"⟩]

/-- All-numbers reading of a JSON array, used for `z.array(z.number())`. -/
def parseNumberList : List Json → Option (List Int)
  | [] => some []
  | .num n :: xs => (parseNumberList xs).map (n :: ·)
  | _ => none

/-- All-strings reading of a JSON array, used for `z.array(z.string())`. -/
def parseStringList : List Json → Option (List String)
  | [] => some []
  | .str s :: xs => (parseStringList xs).map (s :: ·)
  | _ => none

/-- Modelled from the spec: an optional array-of-numbers field
(`assignee_ids` in `create_issue`). -/
def optionalNumberArray (kvs : List (String × Json)) (k : String) :
    ZodResult (Option (List Int)) :=
  match List.lookup k kvs with
  | none => .ok none
  | some (.arr xs) =>
      match parseNumberList xs with
      | none => .error [⟨[k], "Expected array of numbers"⟩]
      | some ns => .ok (some ns)
  | some _ => .error [⟨[k], "Expected array"⟩]

/-- Modelled from the spec: an optional array-of-strings field
(`labels` in `create_issue`). -/
def optionalStringArray (kvs : List (String × Json)) (k : String) :
    ZodResult (Option (List String)) :=
  match List.lookup k kvs with
  | none => .ok none
  | some (.arr xs) =>
      match parseStringList xs with
      | none => .error [⟨[k], "Expected array of strings"⟩]
      | some ss => .ok (some ss)
  | some _ => .error [⟨[k], "Expected array"⟩]

/-- Arguments of `fork_repository` (README: `project_id`, optional
`namespace`; the field is called `nspace` here because `namespace` is a
Lean keyword). -/
structure ForkRepositoryArgs where
  project_id : String
  nspace : Option String
deriving DecidableEq, Repr

/-- Modelled from the spec: `ForkRepositorySchema.parse` from the missing
`schemas.ts`, per the README's input list for `fork_repository`. -/
def ForkRepositorySchema.parse (j : Json) : ZodResult ForkRepositoryArgs :=
  match j with
  | .obj kvs =>
      match zodMerge (requiredString kvs "project_id") (optionalString kvs "namespace") with
      | .error es => .error es
      | .ok (p, ns) => .ok ⟨p, ns⟩
  | _ => .error [⟨[], "Expected object"⟩]

/-- Arguments of `create_branch` (README: `project_id`, `branch`, optional
`ref`). -/
structure CreateBranchArgs where
  project_id : String
  branch : String
  ref : Option String
deriving DecidableEq, Repr

/-- Modelled from the spec: `CreateBranchSchema.parse`, per the README's
input list for `create_branch`; `ref` is an optional string. -/
def CreateBranchSchema.parse (j : Json) : ZodResult CreateBranchArgs :=
  match j with
  | .obj kvs =>
      match zodMerge (requiredString kvs "project_id")
          (zodMerge (requiredString kvs "branch") (optionalString kvs "ref")) with
      | .error es => .error es
      | .ok (p, b, r) => .ok ⟨p, b, r⟩
  | _ => .error [⟨[], "Expected object"⟩]

/-- Arguments of `search_repositories` (README: `search`, optional `page`,
optional `per_page`). -/
structure SearchRepositoriesArgs where
  search : String
  page : Option Int
  per_page : Option Int
deriving DecidableEq, Repr

/-- Modelled from the spec: `SearchRepositoriesSchema.parse`, per the
README's input list for `search_repositories`. -/
def SearchRepositoriesSchema.parse (j : Json) : ZodResult SearchRepositoriesArgs :=
  match j with
  | .obj kvs =>
      match zodMerge (requiredString kvs "search")
          (zodMerge (optionalNumber kvs "page") (optionalNumber kvs "per_page")) with
      | .error es => .error es
      | .ok (s, p, pp) => .ok ⟨s, p, pp⟩
  | _ => .error [⟨[], "Expected object"⟩]

/-- Arguments of `create_repository` (README: `name`, optional
`description`, optional `visibility` enum, optional
`initialize_with_readme`). -/
structure CreateRepositoryArgs where
  name : String
  description : Option String
  visibility : Option String
  initialize_with_readme : Option Bool
deriving DecidableEq, Repr

/-- Modelled from the spec: the optional `visibility` enum field accepting
only `private`, `internal` or `public`. -/
def optionalVisibility (kvs : List (String × Json)) : ZodResult (Option String) :=
  match List.lookup "visibility" kvs with
  | none => .ok none
  | some (.str s) =>
      if s = "private" ∨ s = "internal" ∨ s = "public" then .ok (some s)
      else .error [⟨["visibility"], "Invalid enum value"⟩]
  | some _ => .error [⟨["visibility"], "Expected string"⟩]

/-- Modelled from the spec: `CreateRepositorySchema.parse`, per the
README's input list for `create_repository`. -/
def CreateRepositorySchema.parse (j : Json) : ZodResult CreateRepositoryArgs :=
  match j with
  | .obj kvs =>
      match zodMerge (requiredString kvs "name")
          (zodMerge (optionalString kvs "description")
            (zodMerge (optionalVisibility kvs) (optionalBoolean kvs "initialize_with_readme"))) with
      | .error es => .error es
      | .ok (n, d, v, i) => .ok ⟨n, d, v, i⟩
  | _ => .error [⟨[], "Expected object"⟩]

/-- Arguments of `get_file_contents` (README: `project_id`, `file_path`,
optional `ref`). -/
structure GetFileContentsArgs where
  project_id : String
  file_path : String
  ref : Option String
deriving DecidableEq, Repr

/-- Modelled from the spec: `GetFileContentsSchema.parse`, per the README's
input list for `get_file_contents`. -/
def GetFileContentsSchema.parse (j : Json) : ZodResult GetFileContentsArgs :=
  match j with
  | .obj kvs =>
      match zodMerge (requiredString kvs "project_id")
          (zodMerge (requiredString kvs "file_path") (optionalString kvs "ref")) with
      | .error es => .error es
      | .ok (p, f, r) => .ok ⟨p, f, r⟩
  | _ => .error [⟨[], "Expected object"⟩]

/-- Arguments of `get_repository_tree`: the handler reads `project_id`,
`path`, `ref`, `recursive` and `per_page` off the parsed arguments. -/
structure GetRepositoryTreeArgs where
  project_id : String
  path : Option String
  ref : Option String
  recursive : Option Bool
  per_page : Option Int
deriving DecidableEq, Repr

/-- Modelled from the spec: `GetRepositoryTreeSchema.parse`; the README
lists `path`, `ref` and `recursive` as optional, and the handler also uses
`project_id` (required, as for every project-scoped tool) and an optional
`per_page`. -/
def GetRepositoryTreeSchema.parse (j : Json) : ZodResult GetRepositoryTreeArgs :=
  match j with
  | .obj kvs =>
      match zodMerge (requiredString kvs "project_id")
          (zodMerge (optionalString kvs "path")
            (zodMerge (optionalString kvs "ref")
              (zodMerge (optionalBoolean kvs "recursive") (optionalNumber kvs "per_page")))) with
      | .error es => .error es
      | .ok (p, pa, r, rec, pp) => .ok ⟨p, pa, r, rec, pp⟩
  | _ => .error [⟨[], "Expected object"⟩]

/-- Arguments of `create_or_update_file` (README: `project_id`,
`file_path`, `content`, `commit_message`, `branch`, optional
`previous_path`). -/
structure CreateOrUpdateFileArgs where
  project_id : String
  file_path : String
  content : String
  commit_message : String
  branch : String
  previous_path : Option String
deriving DecidableEq, Repr

/-- Modelled from the spec: `CreateOrUpdateFileSchema.parse`, per the
README's input list for `create_or_update_file`. -/
def CreateOrUpdateFileSchema.parse (j : Json) : ZodResult CreateOrUpdateFileArgs :=
  match j with
  | .obj kvs =>
      match zodMerge (requiredString kvs "project_id")
          (zodMerge (requiredString kvs "file_path")
            (zodMerge (requiredString kvs "content")
              (zodMerge (requiredString kvs "commit_message")
                (zodMerge (requiredString kvs "branch") (optionalString kvs "previous_path"))))) with
      | .error es => .error es
      | .ok (p, f, c, m, b, pp) => .ok ⟨p, f, c, m, b, pp⟩
  | _ => .error [⟨[], "Expected object"⟩]

/-- One entry of the `files` array of `push_files` (README: `file_path`
and `content`). -/
structure PushFileEntry where
  file_path : String
  content : String
deriving DecidableEq, Repr

/-- Modelled from the spec: parsing one element of the `files` array, with
Zod's indexed issue paths `files.<i>.<field>`. -/
def parsePushFileEntry (idx : Nat) (j : Json) : ZodResult PushFileEntry :=
  match j with
  | .obj kvs =>
      match zodMerge (requiredStringP ["files", toString idx] kvs "file_path")
          (requiredStringP ["files", toString idx] kvs "content") with
      | .error es => .error es
      | .ok (f, c) => .ok ⟨f, c⟩
  | _ => .error [⟨["files", toString idx], "Expected object"⟩]

/-- Modelled from the spec: parsing the `files` array of `push_files`,
accumulating the issues of every element. -/
def parsePushFiles (idx : Nat) : List Json → ZodResult (List PushFileEntry)
  | [] => .ok []
  | j :: js =>
      match zodMerge (parsePushFileEntry idx j) (parsePushFiles (idx + 1) js) with
      | .error es => .error es
      | .ok (x, xs) => .ok (x :: xs)

/-- Arguments of `push_files` (README: `project_id`, `branch`, `files`,
`commit_message`). -/
structure PushFilesArgs where
  project_id : String
  branch : String
  files : List PushFileEntry
  commit_message : String
deriving DecidableEq, Repr

/-- Modelled from the spec: the required `files` array field. -/
def requiredFilesArray (kvs : List (String × Json)) : ZodResult (List PushFileEntry) :=
  match List.lookup "files" kvs with
  | none => .error [⟨["files"], "Required"⟩]
  | some (.arr xs) => parsePushFiles 0 xs
  | some _ => .error [⟨["files"], "Expected array"⟩]

/-- Modelled from the spec: `PushFilesSchema.parse`, per the README's input
list for `push_files`. -/
def PushFilesSchema.parse (j : Json) : ZodResult PushFilesArgs :=
  match j with
  | .obj kvs =>
      match zodMerge (requiredString kvs "project_id")
          (zodMerge (requiredString kvs "branch")
            (zodMerge (requiredFilesArray kvs) (requiredString kvs "commit_message"))) with
      | .error es => .error es
      | .ok (p, b, fs, m) => .ok ⟨p, b, fs, m⟩
  | _ => .error [⟨[], "Expected object"⟩]

/-- Arguments of `create_issue` (README: `project_id`, `title`, optional
`description`, `assignee_ids`, `labels`, `milestone_id`). -/
structure CreateIssueArgs where
  project_id : String
  title : String
  description : Option String
  assignee_ids : Option (List Int)
  labels : Option (List String)
  milestone_id : Option Int
deriving DecidableEq, Repr

/-- Modelled from the spec: `CreateIssueSchema.parse`, per the README's
input list for `create_issue`. -/
def CreateIssueSchema.parse (j : Json) : ZodResult CreateIssueArgs :=
  match j with
  | .obj kvs =>
      match zodMerge (requiredString kvs "project_id")
          (zodMerge (requiredString kvs "title")
            (zodMerge (optionalString kvs "description")
              (zodMerge (optionalNumberArray kvs "assignee_ids")
                (zodMerge (optionalStringArray kvs "labels") (optionalNumber kvs "milestone_id"))))) with
      | .error es => .error es
      | .ok (p, t, d, a, l, m) => .ok ⟨p, t, d, a, l, m⟩
  | _ => .error [⟨[], "Expected object"⟩]

/-- Arguments of `create_merge_request` (README: `project_id`, `title`,
optional `description`, `source_branch`, `target_branch`, optional `draft`,
optional `allow_collaboration`). -/
structure CreateMergeRequestArgs where
  project_id : String
  title : String
  description : Option String
  source_branch : String
  target_branch : String
  draft : Option Bool
  allow_collaboration : Option Bool
deriving DecidableEq, Repr

/-- Modelled from the spec: `CreateMergeRequestSchema.parse`, per the
README's input list for `create_merge_request`. -/
def CreateMergeRequestSchema.parse (j : Json) : ZodResult CreateMergeRequestArgs :=
  match j with
  | .obj kvs =>
      match zodMerge (requiredString kvs "project_id")
          (zodMerge (requiredString kvs "title")
            (zodMerge (optionalString kvs "description")
              (zodMerge (requiredString kvs "source_branch")
                (zodMerge (requiredString kvs "target_branch")
                  (zodMerge (optionalBoolean kvs "draft")
                    (optionalBoolean kvs "allow_collaboration")))))) with
      | .error es => .error es
      | .ok (p, t, d, s, tb, dr, ac) => .ok ⟨p, t, d, s, tb, dr, ac⟩
  | _ => .error [⟨[], "Expected object"⟩]

/-- One entry of the GitLab repository-tree response: the handler reads
only its `type` (`tree` or `blob`) and `path` fields. -/
structure TreeItem where
  type : String
  path : String
deriving DecidableEq, Repr

/-- The JSON shape of one tree entry as the GitLab API returns it, used to
compare the handler's output with the raw API result. -/
def TreeItem.toJson (i : TreeItem) : Json :=
  .obj [("type", .str i.type), ("path", .str i.path)]

/-- The JSON shape of a whole tree response. -/
def treeToJson (tree : List TreeItem) : Json :=
  .arr (tree.map TreeItem.toJson)

/-- An opaque failure thrown by a GitLab API adapter (an HTTP failure or
anything else `gitlab-api.ts` throws); the dispatch layer never looks
inside it. -/
structure ApiError where
  msg : String
deriving DecidableEq, Repr

/-- Options object of `createBranch(project_id, {name, ref})`. -/
structure CreateBranchOpts where
  name : String
  ref : String
deriving DecidableEq, Repr

/-- One file of the commit built by the `push_files` case:
`{path: f.file_path, content: f.content}`. -/
structure CommitFile where
  path : String
  content : String
deriving DecidableEq, Repr

/-- Options object passed to `createIssue(project_id, options)`: the
parsed arguments minus `project_id` (the `{ project_id, ...options }`
destructuring). -/
structure CreateIssueOptions where
  title : String
  description : Option String
  assignee_ids : Option (List Int)
  labels : Option (List String)
  milestone_id : Option Int
deriving DecidableEq, Repr

/-- Options object passed to `createMergeRequest(project_id, options)`. -/
structure CreateMergeRequestOptions where
  title : String
  description : Option String
  source_branch : String
  target_branch : String
  draft : Option Bool
  allow_collaboration : Option Bool
deriving DecidableEq, Repr

/-- Modelled from the spec: the GitLab API adapters of the missing
`gitlab-api.ts`, abstracted as a record of functions — "a catalog of thin
adapters (one function per REST endpoint)".  Each field either fails
opaquely or returns the parsed JSON body (`getDefaultBranchRef` returns
the default branch name, `getRepositoryTree` the parsed tree entries). -/
structure GitLabApi where
  forkProject : String → Option String → Except ApiError Json
  getDefaultBranchRef : String → Except ApiError String
  createBranch : String → CreateBranchOpts → Except ApiError Json
  searchProjects : String → Option Int → Option Int → Except ApiError Json
  createRepository : CreateRepositoryArgs → Except ApiError Json
  getFileContents : String → String → Option String → Except ApiError Json
  getRepositoryTree : String → Option String → Option String → Option Bool → Option Int →
    Except ApiError (List TreeItem)
  createOrUpdateFile : String → String → String → String → String → Option String →
    Except ApiError Json
  createCommit : String → String → String → List CommitFile → Except ApiError Json
  createIssue : String → CreateIssueOptions → Except ApiError Json
  createMergeRequest : String → CreateMergeRequestOptions → Except ApiError Json

/-- A record of one outgoing GitLab API invocation: since each adapter of
`gitlab-api.ts` issues exactly one HTTP request, the list of these records
is the outgoing HTTP traffic of handling a request. -/
inductive ApiCall where
  | forkProject (project_id : String) (nspace : Option String)
  | getDefaultBranchRef (project_id : String)
  | createBranch (project_id : String) (opts : CreateBranchOpts)
  | searchProjects (search : String) (page per_page : Option Int)
  | createRepository (args : CreateRepositoryArgs)
  | getFileContents (project_id file_path : String) (ref : Option String)
  | getRepositoryTree (project_id : String) (path ref : Option String)
      (recursive : Option Bool) (per_page : Option Int)
  | createOrUpdateFile (project_id file_path content commit_message branch : String)
      (previous_path : Option String)
  | createCommit (project_id commit_message branch : String) (files : List CommitFile)
  | createIssue (project_id : String) (options : CreateIssueOptions)
  | createMergeRequest (project_id : String) (options : CreateMergeRequestOptions)
deriving DecidableEq, Repr

/-- One item of a tool response's `content` array. -/
structure ContentItem where
  type : String
  text : String
deriving DecidableEq, Repr

/-- The response envelope returned by the tool-call handler:
`{ content: [{ type: "text", text: ... }] }`. -/
structure ToolResponse where
  content : List ContentItem
deriving DecidableEq, Repr

/-- `{ content: [{ type: "text", text: s }] }`, the envelope built at every
return site of the handler. -/
def textResponse (s : String) : ToolResponse :=
  ⟨[⟨"text", s⟩]⟩

/-- An error surfaced to the caller of a tool: either a JS `Error` with a
message (including the reformatted Zod reports) or an opaque API failure
rethrown by the handler's `catch`. -/
inductive ThrownError where
  | message (msg : String)
  | apiError (e : ApiError)
deriving DecidableEq, Repr

/-- The `catch` branch for `ZodError`: `"Invalid arguments: "` followed by
`path.join('.') + ": " + message` for every issue, comma-joined. -/
def invalidArgumentsMessage (issues : List ZodIssue) : String :=
  "Invalid arguments: " ++
    String.intercalate ", "
      (issues.map fun i => String.intercalate "." i.path ++ ": " ++ i.message)

/-- Result of the tool-call handler: the response or the thrown error,
paired with the ordered list of GitLab API calls issued while handling. -/
abbrev HandlerResult := Except ThrownError ToolResponse × List ApiCall

/-- The `fork_repository` case: parse, call `forkProject`, forward the
JSON result. -/
def handleForkRepository (api : GitLabApi) (j : Json) : HandlerResult :=
  match ForkRepositorySchema.parse j with
  | .error issues => (.error (.message (invalidArgumentsMessage issues)), [])
  | .ok args =>
      match api.forkProject args.project_id args.nspace with
      | .error e => (.error (.apiError e), [.forkProject args.project_id args.nspace])
      | .ok fork =>
          (.ok (textResponse (jsonStringify fork)),
            [.forkProject args.project_id args.nspace])

/-- The `create_branch` case: parse; `let ref = args.ref; if (!ref) ref =
await getDefaultBranchRef(...)` — a JS falsy test, so an absent ref and an
empty-string ref both trigger the default-branch lookup — then call
`createBranch(project_id, {name: branch, ref})` and forward its result. -/
def handleCreateBranch (api : GitLabApi) (j : Json) : HandlerResult :=
  match CreateBranchSchema.parse j with
  | .error issues => (.error (.message (invalidArgumentsMessage issues)), [])
  | .ok args =>
      if args.ref.getD "" = "" then
        match api.getDefaultBranchRef args.project_id with
        | .error e => (.error (.apiError e), [.getDefaultBranchRef args.project_id])
        | .ok ref =>
            match api.createBranch args.project_id ⟨args.branch, ref⟩ with
            | .error e =>
                (.error (.apiError e),
                  [.getDefaultBranchRef args.project_id,
                    .createBranch args.project_id ⟨args.branch, ref⟩])
            | .ok branch =>
                (.ok (textResponse (jsonStringify branch)),
                  [.getDefaultBranchRef args.project_id,
                    .createBranch args.project_id ⟨args.branch, ref⟩])
      else
        match api.createBranch args.project_id ⟨args.branch, args.ref.getD ""⟩ with
        | .error e =>
            (.error (.apiError e),
              [.createBranch args.project_id ⟨args.branch, args.ref.getD ""⟩])
        | .ok branch =>
            (.ok (textResponse (jsonStringify branch)),
              [.createBranch args.project_id ⟨args.branch, args.ref.getD ""⟩])

/-- The `search_repositories` case. -/
def handleSearchRepositories (api : GitLabApi) (j : Json) : HandlerResult :=
  match SearchRepositoriesSchema.parse j with
  | .error issues => (.error (.message (invalidArgumentsMessage issues)), [])
  | .ok args =>
      match api.searchProjects args.search args.page args.per_page with
      | .error e => (.error (.apiError e), [.searchProjects args.search args.page args.per_page])
      | .ok results =>
          (.ok (textResponse (jsonStringify results)),
            [.searchProjects args.search args.page args.per_page])

/-- The `create_repository` case: the whole parsed argument object is
passed to `createRepository`. -/
def handleCreateRepository (api : GitLabApi) (j : Json) : HandlerResult :=
  match CreateRepositorySchema.parse j with
  | .error issues => (.error (.message (invalidArgumentsMessage issues)), [])
  | .ok args =>
      match api.createRepository args with
      | .error e => (.error (.apiError e), [.createRepository args])
      | .ok repository =>
          (.ok (textResponse (jsonStringify repository)), [.createRepository args])

/-- The `get_file_contents` case. -/
def handleGetFileContents (api : GitLabApi) (j : Json) : HandlerResult :=
  match GetFileContentsSchema.parse j with
  | .error issues => (.error (.message (invalidArgumentsMessage issues)), [])
  | .ok args =>
      match api.getFileContents args.project_id args.file_path args.ref with
      | .error e =>
          (.error (.apiError e), [.getFileContents args.project_id args.file_path args.ref])
      | .ok contents =>
          (.ok (textResponse (jsonStringify contents)),
            [.getFileContents args.project_id args.file_path args.ref])

/-- The tree formatting of the `get_repository_tree` case: a header, then
every entry of type `tree` as `Folder: <path>/`, then every entry of type
`blob` as `File: <path>`, appended by two `forEach` loops over the two
`filter` results. -/
def formatTree (tree : List TreeItem) : String :=
  let directories := tree.filter fun item => item.type = "tree"
  let files := tree.filter fun item => item.type = "blob"
  let s0 := "Repository directory structure:\n\n"
  let s1 := directories.foldl (fun acc dir => acc ++ "Folder: " ++ dir.path ++ "/\n") s0
  files.foldl (fun acc file => acc ++ "File: " ++ file.path ++ "\n") s1

/-- The `get_repository_tree` case: parse, call `getRepositoryTree`, and
return the reformatted textual listing (not the raw JSON). -/
def handleGetRepositoryTree (api : GitLabApi) (j : Json) : HandlerResult :=
  match GetRepositoryTreeSchema.parse j with
  | .error issues => (.error (.message (invalidArgumentsMessage issues)), [])
  | .ok args =>
      match api.getRepositoryTree args.project_id args.path args.ref args.recursive args.per_page with
      | .error e =>
          (.error (.apiError e),
            [.getRepositoryTree args.project_id args.path args.ref args.recursive args.per_page])
      | .ok tree =>
          (.ok (textResponse (formatTree tree)),
            [.getRepositoryTree args.project_id args.path args.ref args.recursive args.per_page])

/-- The `create_or_update_file` case. -/
def handleCreateOrUpdateFile (api : GitLabApi) (j : Json) : HandlerResult :=
  match CreateOrUpdateFileSchema.parse j with
  | .error issues => (.error (.message (invalidArgumentsMessage issues)), [])
  | .ok args =>
      match api.createOrUpdateFile args.project_id args.file_path args.content
          args.commit_message args.branch args.previous_path with
      | .error e =>
          (.error (.apiError e),
            [.createOrUpdateFile args.project_id args.file_path args.content
              args.commit_message args.branch args.previous_path])
      | .ok result =>
          (.ok (textResponse (jsonStringify result)),
            [.createOrUpdateFile args.project_id args.file_path args.content
              args.commit_message args.branch args.previous_path])

/-- The `push_files` case: the files are re-keyed to
`{path: f.file_path, content: f.content}` before `createCommit`. -/
def handlePushFiles (api : GitLabApi) (j : Json) : HandlerResult :=
  match PushFilesSchema.parse j with
  | .error issues => (.error (.message (invalidArgumentsMessage issues)), [])
  | .ok args =>
      let files := args.files.map fun f => CommitFile.mk f.file_path f.content
      match api.createCommit args.project_id args.commit_message args.branch files with
      | .error e =>
          (.error (.apiError e),
            [.createCommit args.project_id args.commit_message args.branch files])
      | .ok result =>
          (.ok (textResponse (jsonStringify result)),
            [.createCommit args.project_id args.commit_message args.branch files])

/-- The `create_issue` case: `const { project_id, ...options } = args`. -/
def handleCreateIssue (api : GitLabApi) (j : Json) : HandlerResult :=
  match CreateIssueSchema.parse j with
  | .error issues => (.error (.message (invalidArgumentsMessage issues)), [])
  | .ok args =>
      let options : CreateIssueOptions :=
        ⟨args.title, args.description, args.assignee_ids, args.labels, args.milestone_id⟩
      match api.createIssue args.project_id options with
      | .error e => (.error (.apiError e), [.createIssue args.project_id options])
      | .ok issue =>
          (.ok (textResponse (jsonStringify issue)), [.createIssue args.project_id options])

/-- The `create_merge_request` case: `const { project_id, ...options } =
args`. -/
def handleCreateMergeRequest (api : GitLabApi) (j : Json) : HandlerResult :=
  match CreateMergeRequestSchema.parse j with
  | .error issues => (.error (.message (invalidArgumentsMessage issues)), [])
  | .ok args =>
      let options : CreateMergeRequestOptions :=
        ⟨args.title, args.description, args.source_branch, args.target_branch,
          args.draft, args.allow_collaboration⟩
      match api.createMergeRequest args.project_id options with
      | .error e => (.error (.apiError e), [.createMergeRequest args.project_id options])
      | .ok mergeRequest =>
          (.ok (textResponse (jsonStringify mergeRequest)),
            [.createMergeRequest args.project_id options])

/-- Parameters of an incoming tool-call request: `request.params.name` and
`request.params.arguments` (absent when the caller sent none). -/
structure CallToolParams where
  name : String
  arguments : Option Json

/-- An incoming tool-call request. -/
structure CallToolRequest where
  params : CallToolParams

/-- The `CallToolRequestSchema` handler of `index.ts`: reject absent
arguments, dispatch on the tool name (a JS `switch` over string literals,
i.e. sequential equality tests), and report unknown tools.  Zod failures
surface as the reformatted `Invalid arguments:` error, everything else
thrown inside the `try` is rethrown by the `catch` unchanged. -/
def handleCallTool (api : GitLabApi) (req : CallToolRequest) : HandlerResult :=
  match req.params.arguments with
  | none => (.error (.message "Arguments are required"), [])
  | some j =>
      if req.params.name = "fork_repository" then handleForkRepository api j
      else if req.params.name = "create_branch" then handleCreateBranch api j
      else if req.params.name = "search_repositories" then handleSearchRepositories api j
      else if req.params.name = "create_repository" then handleCreateRepository api j
      else if req.params.name = "get_file_contents" then handleGetFileContents api j
      else if req.params.name = "get_repository_tree" then handleGetRepositoryTree api j
      else if req.params.name = "create_or_update_file" then handleCreateOrUpdateFile api j
      else if req.params.name = "push_files" then handlePushFiles api j
      else if req.params.name = "create_issue" then handleCreateIssue api j
      else if req.params.name = "create_merge_request" then handleCreateMergeRequest api j
      else (.error (.message ("Unknown tool: " ++ req.params.name)), [])

/-- The names of the ten tools the dispatch switch knows. -/
def toolNames : List String :=
  ["fork_repository", "create_branch", "search_repositories", "create_repository",
    "get_file_contents", "get_repository_tree", "create_or_update_file", "push_files",
    "create_issue", "create_merge_request"]

/-- One advertised tool of the catalog (the JSON input schema produced by
`zodToJsonSchema` is omitted; the claims concern only the names). -/
structure ToolDecl where
  name : String
  description : String
deriving DecidableEq, Repr

/-- The `readonlyTools` list of the `ListToolsRequestSchema` handler. -/
def readonlyTools : List String :=
  ["search_repositories", "get_repository_tree", "get_file_contents"]

/-- The full `tools` catalog of the `ListToolsRequestSchema` handler, in
source order. -/
def allTools : List ToolDecl :=
  [⟨"create_or_update_file", "Create or update a single file in a GitLab project"⟩,
    ⟨"search_repositories", "Search for GitLab projects"⟩,
    ⟨"create_repository", "Create a new GitLab project"⟩,
    ⟨"get_file_contents", "Get the contents of a file or directory from a GitLab project"⟩,
    ⟨"get_repository_tree", "Get the directory tree of a GitLab project"⟩,
    ⟨"push_files", "Push multiple files to a GitLab project in a single commit"⟩,
    ⟨"create_issue", "Create a new issue in a GitLab project"⟩,
    ⟨"create_merge_request", "Create a new merge request in a GitLab project"⟩,
    ⟨"fork_repository", "Fork a GitLab project to your account or specified namespace"⟩,
    ⟨"create_branch", "Create a new branch in a GitLab project"⟩]

/-- The `ListToolsRequestSchema` handler:
`isReadOnly ? tools.filter(t => readonlyTools.includes(t.name)) : tools`. -/
def listTools (isReadOnly : Bool) : List ToolDecl :=
  if isReadOnly then allTools.filter (fun t => readonlyTools.contains t.name) else allTools

/-- The server's only configuration, fixed at startup by `parseArgs`:
the `--readonly` flag bound to the module constant `isReadOnly`. -/
structure ServerState where
  isReadOnly : Bool
deriving DecidableEq, Repr

/-- The tool-call handler as a state transformer over the server's state.
The handler body (`index.ts` lines 119-247) reads no module variable and
assigns to none — `isReadOnly` is a `const` it never mentions — so the
translation returns the state it was given and ignores its flag. -/
def handleCallToolSt (s : ServerState) (api : GitLabApi) (req : CallToolRequest) :
    HandlerResult × ServerState :=
  (handleCallTool api req, s)

/-- Handling a whole sequence of tool calls, threading the server state. -/
def runCalls (api : GitLabApi) (s : ServerState) :
    List CallToolRequest → List HandlerResult × ServerState
  | [] => ([], s)
  | r :: rs =>
      let step := handleCallToolSt s api r
      let rest := runCalls api step.2 rs
      (step.1 :: rest.1, rest.2)

/-- A sample JSON body standing for a GitLab response in concrete runs. -/
def sampleResult : Json :=
  .obj [("id", .num 42)]

/-- A GitLab API test double whose every adapter succeeds: projects fork,
the default branch is `main`, and the repository tree holds one folder and
one file. -/
def okApi : GitLabApi where
  forkProject _ _ := .ok sampleResult
  getDefaultBranchRef _ := .ok "main"
  createBranch _ _ := .ok sampleResult
  searchProjects _ _ _ := .ok sampleResult
  createRepository _ := .ok sampleResult
  getFileContents _ _ _ := .ok sampleResult
  getRepositoryTree _ _ _ _ _ := .ok [⟨"tree", "docs"⟩, ⟨"blob", "a.txt"⟩]
  createOrUpdateFile _ _ _ _ _ _ := .ok sampleResult
  createCommit _ _ _ _ := .ok sampleResult
  createIssue _ _ := .ok sampleResult
  createMergeRequest _ _ := .ok sampleResult

/-- A GitLab API test double whose every adapter fails opaquely. -/
def failApi : GitLabApi where
  forkProject _ _ := .error ⟨"boom"⟩
  getDefaultBranchRef _ := .error ⟨"boom"⟩
  createBranch _ _ := .error ⟨"boom"⟩
  searchProjects _ _ _ := .error ⟨"boom"⟩
  createRepository _ := .error ⟨"boom"⟩
  getFileContents _ _ _ := .error ⟨"boom"⟩
  getRepositoryTree _ _ _ _ _ := .error ⟨"boom"⟩
  createOrUpdateFile _ _ _ _ _ _ := .error ⟨"boom"⟩
  createCommit _ _ _ _ := .error ⟨"boom"⟩
  createIssue _ _ := .error ⟨"boom"⟩
  createMergeRequest _ _ := .error ⟨"boom"⟩

/-- A tool-call request with arguments present. -/
def mkReq (name : String) (j : Json) : CallToolRequest :=
  ⟨⟨name, some j⟩⟩

theorem handleCallTool_fork (api : GitLabApi) (j : Json) :
    handleCallTool api (mkReq "fork_repository" j) = handleForkRepository api j := rfl

theorem handleCallTool_createBranch (api : GitLabApi) (j : Json) :
    handleCallTool api (mkReq "create_branch" j) = handleCreateBranch api j := rfl

theorem handleCallTool_search (api : GitLabApi) (j : Json) :
    handleCallTool api (mkReq "search_repositories" j) = handleSearchRepositories api j := rfl

theorem handleCallTool_createRepo (api : GitLabApi) (j : Json) :
    handleCallTool api (mkReq "create_repository" j) = handleCreateRepository api j := rfl

theorem handleCallTool_getFile (api : GitLabApi) (j : Json) :
    handleCallTool api (mkReq "get_file_contents" j) = handleGetFileContents api j := rfl

theorem handleCallTool_getTree (api : GitLabApi) (j : Json) :
    handleCallTool api (mkReq "get_repository_tree" j) = handleGetRepositoryTree api j := rfl

theorem handleCallTool_createFile (api : GitLabApi) (j : Json) :
    handleCallTool api (mkReq "create_or_update_file" j) = handleCreateOrUpdateFile api j := rfl

theorem handleCallTool_pushFiles (api : GitLabApi) (j : Json) :
    handleCallTool api (mkReq "push_files" j) = handlePushFiles api j := rfl

theorem handleCallTool_createIssue (api : GitLabApi) (j : Json) :
    handleCallTool api (mkReq "create_issue" j) = handleCreateIssue api j := rfl

theorem handleCallTool_createMR (api : GitLabApi) (j : Json) :
    handleCallTool api (mkReq "create_merge_request" j) = handleCreateMergeRequest api j := rfl

theorem handleForkRepository_invalid (api : GitLabApi) (j : Json) (issues : List ZodIssue)
    (hp : ForkRepositorySchema.parse j = .error issues) :
    handleForkRepository api j = (.error (.message (invalidArgumentsMessage issues)), []) := by
  simp [handleForkRepository, hp]

theorem handleForkRepository_ok (api : GitLabApi) (j : Json) (a : ForkRepositoryArgs) (v : Json)
    (hp : ForkRepositorySchema.parse j = .ok a)
    (hv : api.forkProject a.project_id a.nspace = .ok v) :
    handleForkRepository api j =
      (.ok (textResponse (jsonStringify v)), [.forkProject a.project_id a.nspace]) := by
  simp [handleForkRepository, hp, hv]

theorem handleForkRepository_err (api : GitLabApi) (j : Json) (a : ForkRepositoryArgs) (e : ApiError)
    (hp : ForkRepositorySchema.parse j = .ok a)
    (hv : api.forkProject a.project_id a.nspace = .error e) :
    handleForkRepository api j = (.error (.apiError e), [.forkProject a.project_id a.nspace]) := by
  simp [handleForkRepository, hp, hv]

theorem handleCreateBranch_invalid (api : GitLabApi) (j : Json) (issues : List ZodIssue)
    (hp : CreateBranchSchema.parse j = .error issues) :
    handleCreateBranch api j = (.error (.message (invalidArgumentsMessage issues)), []) := by
  simp [handleCreateBranch, hp]

theorem handleCreateBranch_default_lookup_err (api : GitLabApi) (j : Json)
    (a : CreateBranchArgs) (e : ApiError)
    (hp : CreateBranchSchema.parse j = .ok a) (hr : a.ref.getD "" = "")
    (hd : api.getDefaultBranchRef a.project_id = .error e) :
    handleCreateBranch api j = (.error (.apiError e), [.getDefaultBranchRef a.project_id]) := by
  simp [handleCreateBranch, hp, hr, hd]

theorem handleCreateBranch_default_ok (api : GitLabApi) (j : Json)
    (a : CreateBranchArgs) (d : String) (v : Json)
    (hp : CreateBranchSchema.parse j = .ok a) (hr : a.ref.getD "" = "")
    (hd : api.getDefaultBranchRef a.project_id = .ok d)
    (hv : api.createBranch a.project_id ⟨a.branch, d⟩ = .ok v) :
    handleCreateBranch api j =
      (.ok (textResponse (jsonStringify v)),
        [.getDefaultBranchRef a.project_id, .createBranch a.project_id ⟨a.branch, d⟩]) := by
  simp [handleCreateBranch, hp, hr, hd, hv]

theorem handleCreateBranch_default_err (api : GitLabApi) (j : Json)
    (a : CreateBranchArgs) (d : String) (e : ApiError)
    (hp : CreateBranchSchema.parse j = .ok a) (hr : a.ref.getD "" = "")
    (hd : api.getDefaultBranchRef a.project_id = .ok d)
    (hv : api.createBranch a.project_id ⟨a.branch, d⟩ = .error e) :
    handleCreateBranch api j =
      (.error (.apiError e),
        [.getDefaultBranchRef a.project_id, .createBranch a.project_id ⟨a.branch, d⟩]) := by
  simp [handleCreateBranch, hp, hr, hd, hv]

theorem handleCreateBranch_given_ok (api : GitLabApi) (j : Json)
    (a : CreateBranchArgs) (r : String) (v : Json)
    (hp : CreateBranchSchema.parse j = .ok a) (hr : a.ref = some r) (hne : r ≠ "")
    (hv : api.createBranch a.project_id ⟨a.branch, r⟩ = .ok v) :
    handleCreateBranch api j =
      (.ok (textResponse (jsonStringify v)), [.createBranch a.project_id ⟨a.branch, r⟩]) := by
  simp [handleCreateBranch, hp, hr, hne, hv]

theorem handleCreateBranch_given_err (api : GitLabApi) (j : Json)
    (a : CreateBranchArgs) (r : String) (e : ApiError)
    (hp : CreateBranchSchema.parse j = .ok a) (hr : a.ref = some r) (hne : r ≠ "")
    (hv : api.createBranch a.project_id ⟨a.branch, r⟩ = .error e) :
    handleCreateBranch api j =
      (.error (.apiError e), [.createBranch a.project_id ⟨a.branch, r⟩]) := by
  simp [handleCreateBranch, hp, hr, hne, hv]

theorem handleSearchRepositories_invalid (api : GitLabApi) (j : Json) (issues : List ZodIssue)
    (hp : SearchRepositoriesSchema.parse j = .error issues) :
    handleSearchRepositories api j = (.error (.message (invalidArgumentsMessage issues)), []) := by
  simp [handleSearchRepositories, hp]

theorem handleSearchRepositories_ok (api : GitLabApi) (j : Json)
    (a : SearchRepositoriesArgs) (v : Json)
    (hp : SearchRepositoriesSchema.parse j = .ok a)
    (hv : api.searchProjects a.search a.page a.per_page = .ok v) :
    handleSearchRepositories api j =
      (.ok (textResponse (jsonStringify v)), [.searchProjects a.search a.page a.per_page]) := by
  simp [handleSearchRepositories, hp, hv]

theorem handleSearchRepositories_err (api : GitLabApi) (j : Json)
    (a : SearchRepositoriesArgs) (e : ApiError)
    (hp : SearchRepositoriesSchema.parse j = .ok a)
    (hv : api.searchProjects a.search a.page a.per_page = .error e) :
    handleSearchRepositories api j =
      (.error (.apiError e), [.searchProjects a.search a.page a.per_page]) := by
  simp [handleSearchRepositories, hp, hv]

theorem handleCreateRepository_invalid (api : GitLabApi) (j : Json) (issues : List ZodIssue)
    (hp : CreateRepositorySchema.parse j = .error issues) :
    handleCreateRepository api j = (.error (.message (invalidArgumentsMessage issues)), []) := by
  simp [handleCreateRepository, hp]

theorem handleCreateRepository_ok (api : GitLabApi) (j : Json)
    (a : CreateRepositoryArgs) (v : Json)
    (hp : CreateRepositorySchema.parse j = .ok a)
    (hv : api.createRepository a = .ok v) :
    handleCreateRepository api j =
      (.ok (textResponse (jsonStringify v)), [.createRepository a]) := by
  simp [handleCreateRepository, hp, hv]

theorem handleCreateRepository_err (api : GitLabApi) (j : Json)
    (a : CreateRepositoryArgs) (e : ApiError)
    (hp : CreateRepositorySchema.parse j = .ok a)
    (hv : api.createRepository a = .error e) :
    handleCreateRepository api j = (.error (.apiError e), [.createRepository a]) := by
  simp [handleCreateRepository, hp, hv]

theorem handleGetFileContents_invalid (api : GitLabApi) (j : Json) (issues : List ZodIssue)
    (hp : GetFileContentsSchema.parse j = .error issues) :
    handleGetFileContents api j = (.error (.message (invalidArgumentsMessage issues)), []) := by
  simp [handleGetFileContents, hp]

theorem handleGetFileContents_ok (api : GitLabApi) (j : Json)
    (a : GetFileContentsArgs) (v : Json)
    (hp : GetFileContentsSchema.parse j = .ok a)
    (hv : api.getFileContents a.project_id a.file_path a.ref = .ok v) :
    handleGetFileContents api j =
      (.ok (textResponse (jsonStringify v)), [.getFileContents a.project_id a.file_path a.ref]) := by
  simp [handleGetFileContents, hp, hv]

theorem handleGetFileContents_err (api : GitLabApi) (j : Json)
    (a : GetFileContentsArgs) (e : ApiError)
    (hp : GetFileContentsSchema.parse j = .ok a)
    (hv : api.getFileContents a.project_id a.file_path a.ref = .error e) :
    handleGetFileContents api j =
      (.error (.apiError e), [.getFileContents a.project_id a.file_path a.ref]) := by
  simp [handleGetFileContents, hp, hv]

theorem handleGetRepositoryTree_invalid (api : GitLabApi) (j : Json) (issues : List ZodIssue)
    (hp : GetRepositoryTreeSchema.parse j = .error issues) :
    handleGetRepositoryTree api j = (.error (.message (invalidArgumentsMessage issues)), []) := by
  simp [handleGetRepositoryTree, hp]

theorem handleGetRepositoryTree_ok (api : GitLabApi) (j : Json)
    (a : GetRepositoryTreeArgs) (tree : List TreeItem)
    (hp : GetRepositoryTreeSchema.parse j = .ok a)
    (hv : api.getRepositoryTree a.project_id a.path a.ref a.recursive a.per_page = .ok tree) :
    handleGetRepositoryTree api j =
      (.ok (textResponse (formatTree tree)),
        [.getRepositoryTree a.project_id a.path a.ref a.recursive a.per_page]) := by
  simp [handleGetRepositoryTree, hp, hv]

theorem handleGetRepositoryTree_err (api : GitLabApi) (j : Json)
    (a : GetRepositoryTreeArgs) (e : ApiError)
    (hp : GetRepositoryTreeSchema.parse j = .ok a)
    (hv : api.getRepositoryTree a.project_id a.path a.ref a.recursive a.per_page = .error e) :
    handleGetRepositoryTree api j =
      (.error (.apiError e),
        [.getRepositoryTree a.project_id a.path a.ref a.recursive a.per_page]) := by
  simp [handleGetRepositoryTree, hp, hv]

theorem handleCreateOrUpdateFile_invalid (api : GitLabApi) (j : Json) (issues : List ZodIssue)
    (hp : CreateOrUpdateFileSchema.parse j = .error issues) :
    handleCreateOrUpdateFile api j = (.error (.message (invalidArgumentsMessage issues)), []) := by
  simp [handleCreateOrUpdateFile, hp]

theorem handleCreateOrUpdateFile_ok (api : GitLabApi) (j : Json)
    (a : CreateOrUpdateFileArgs) (v : Json)
    (hp : CreateOrUpdateFileSchema.parse j = .ok a)
    (hv : api.createOrUpdateFile a.project_id a.file_path a.content a.commit_message
      a.branch a.previous_path = .ok v) :
    handleCreateOrUpdateFile api j =
      (.ok (textResponse (jsonStringify v)),
        [.createOrUpdateFile a.project_id a.file_path a.content a.commit_message
          a.branch a.previous_path]) := by
  simp [handleCreateOrUpdateFile, hp, hv]

theorem handleCreateOrUpdateFile_err (api : GitLabApi) (j : Json)
    (a : CreateOrUpdateFileArgs) (e : ApiError)
    (hp : CreateOrUpdateFileSchema.parse j = .ok a)
    (hv : api.createOrUpdateFile a.project_id a.file_path a.content a.commit_message
      a.branch a.previous_path = .error e) :
    handleCreateOrUpdateFile api j =
      (.error (.apiError e),
        [.createOrUpdateFile a.project_id a.file_path a.content a.commit_message
          a.branch a.previous_path]) := by
  simp [handleCreateOrUpdateFile, hp, hv]

theorem handlePushFiles_invalid (api : GitLabApi) (j : Json) (issues : List ZodIssue)
    (hp : PushFilesSchema.parse j = .error issues) :
    handlePushFiles api j = (.error (.message (invalidArgumentsMessage issues)), []) := by
  simp [handlePushFiles, hp]

theorem handlePushFiles_ok (api : GitLabApi) (j : Json) (a : PushFilesArgs) (v : Json)
    (hp : PushFilesSchema.parse j = .ok a)
    (hv : api.createCommit a.project_id a.commit_message a.branch
      (a.files.map fun f => CommitFile.mk f.file_path f.content) = .ok v) :
    handlePushFiles api j =
      (.ok (textResponse (jsonStringify v)),
        [.createCommit a.project_id a.commit_message a.branch
          (a.files.map fun f => CommitFile.mk f.file_path f.content)]) := by
  simp [handlePushFiles, hp, hv]

theorem handlePushFiles_err (api : GitLabApi) (j : Json) (a : PushFilesArgs) (e : ApiError)
    (hp : PushFilesSchema.parse j = .ok a)
    (hv : api.createCommit a.project_id a.commit_message a.branch
      (a.files.map fun f => CommitFile.mk f.file_path f.content) = .error e) :
    handlePushFiles api j =
      (.error (.apiError e),
        [.createCommit a.project_id a.commit_message a.branch
          (a.files.map fun f => CommitFile.mk f.file_path f.content)]) := by
  simp [handlePushFiles, hp, hv]

theorem handleCreateIssue_invalid (api : GitLabApi) (j : Json) (issues : List ZodIssue)
    (hp : CreateIssueSchema.parse j = .error issues) :
    handleCreateIssue api j = (.error (.message (invalidArgumentsMessage issues)), []) := by
  simp [handleCreateIssue, hp]

theorem handleCreateIssue_ok (api : GitLabApi) (j : Json) (a : CreateIssueArgs) (v : Json)
    (hp : CreateIssueSchema.parse j = .ok a)
    (hv : api.createIssue a.project_id
      ⟨a.title, a.description, a.assignee_ids, a.labels, a.milestone_id⟩ = .ok v) :
    handleCreateIssue api j =
      (.ok (textResponse (jsonStringify v)),
        [.createIssue a.project_id
          ⟨a.title, a.description, a.assignee_ids, a.labels, a.milestone_id⟩]) := by
  simp [handleCreateIssue, hp, hv]

theorem handleCreateIssue_err (api : GitLabApi) (j : Json) (a : CreateIssueArgs) (e : ApiError)
    (hp : CreateIssueSchema.parse j = .ok a)
    (hv : api.createIssue a.project_id
      ⟨a.title, a.description, a.assignee_ids, a.labels, a.milestone_id⟩ = .error e) :
    handleCreateIssue api j =
      (.error (.apiError e),
        [.createIssue a.project_id
          ⟨a.title, a.description, a.assignee_ids, a.labels, a.milestone_id⟩]) := by
  simp [handleCreateIssue, hp, hv]

theorem handleCreateMergeRequest_invalid (api : GitLabApi) (j : Json) (issues : List ZodIssue)
    (hp : CreateMergeRequestSchema.parse j = .error issues) :
    handleCreateMergeRequest api j = (.error (.message (invalidArgumentsMessage issues)), []) := by
  simp [handleCreateMergeRequest, hp]

theorem handleCreateMergeRequest_ok (api : GitLabApi) (j : Json)
    (a : CreateMergeRequestArgs) (v : Json)
    (hp : CreateMergeRequestSchema.parse j = .ok a)
    (hv : api.createMergeRequest a.project_id
      ⟨a.title, a.description, a.source_branch, a.target_branch, a.draft,
        a.allow_collaboration⟩ = .ok v) :
    handleCreateMergeRequest api j =
      (.ok (textResponse (jsonStringify v)),
        [.createMergeRequest a.project_id
          ⟨a.title, a.description, a.source_branch, a.target_branch, a.draft,
            a.allow_collaboration⟩]) := by
  simp [handleCreateMergeRequest, hp, hv]

theorem handleCreateMergeRequest_err (api : GitLabApi) (j : Json)
    (a : CreateMergeRequestArgs) (e : ApiError)
    (hp : CreateMergeRequestSchema.parse j = .ok a)
    (hv : api.createMergeRequest a.project_id
      ⟨a.title, a.description, a.source_branch, a.target_branch, a.draft,
        a.allow_collaboration⟩ = .error e) :
    handleCreateMergeRequest api j =
      (.error (.apiError e),
        [.createMergeRequest a.project_id
          ⟨a.title, a.description, a.source_branch, a.target_branch, a.draft,
            a.allow_collaboration⟩]) := by
  simp [handleCreateMergeRequest, hp, hv]

/-- C9: a tool-call request without an `arguments` field fails with
`Arguments are required` before any dispatch, issuing no API call; and a
request naming a tool outside the fixed set of ten fails with
`Unknown tool: <name>`, also without any API call. -/
theorem missing_arguments_and_unknown_tools_fail_without_api_call :
    (∀ (api : GitLabApi) (name : String),
      handleCallTool api ⟨⟨name, none⟩⟩ = (.error (.message "Arguments are required"), [])) ∧
    (∀ (api : GitLabApi) (name : String) (j : Json), name ∉ toolNames →
      handleCallTool api ⟨⟨name, some j⟩⟩ =
        (.error (.message ("Unknown tool: " ++ name)), [])) := by
  constructor
  · intro api name
    rfl
  · intro api name j h
    simp only [toolNames, List.mem_cons, List.not_mem_nil, or_false, not_or] at h
    obtain ⟨h1, h2, h3, h4, h5, h6, h7, h8, h9, h10⟩ := h
    simp [handleCallTool, h1, h2, h3, h4, h5, h6, h7, h8, h9, h10]

/-- Witness for C9: a request with no arguments and a request for the
unknown tool `delete_repository` are both rejected without any API call. -/
theorem missing_arguments_and_unknown_tools_fail_without_api_call_witness :
    handleCallTool okApi ⟨⟨"create_issue", none⟩⟩ =
      (.error (.message "Arguments are required"), []) ∧
    handleCallTool okApi ⟨⟨"delete_repository", some (.obj [])⟩⟩ =
      (.error (.message ("Unknown tool: " ++ "delete_repository")), []) :=
  ⟨missing_arguments_and_unknown_tools_fail_without_api_call.1 okApi "create_issue",
    missing_arguments_and_unknown_tools_fail_without_api_call.2 okApi "delete_repository"
      (.obj []) (by decide)⟩

/-- C10: handling any sequence of tool calls leaves the server state (the
startup `--readonly` flag, its only configuration) unchanged, and every
call's result is the result of handling that call alone — independent of
which calls preceded it. -/
theorem tool_calls_mutate_no_server_state :
    ∀ (api : GitLabApi) (s : ServerState) (rs : List CallToolRequest),
      (runCalls api s rs).2 = s ∧
      (runCalls api s rs).1 = rs.map (fun r => (handleCallToolSt s api r).1) := by
  intro api s rs
  induction rs with
  | nil => simp [runCalls]
  | cons r rs ih => simp [runCalls, handleCallToolSt, ih]

/-- Concrete valid arguments for `create_or_update_file`, used in concrete
runs. -/
def sampleFileArgs : Json :=
  .obj [("project_id", .str "42"), ("file_path", .str "README.md"),
    ("content", .str "hi"), ("commit_message", .str "init"), ("branch", .str "main")]

/-- C2: the `--readonly` startup flag changes only the list-tools output —
restricting the advertised catalog to `search_repositories`,
`get_file_contents` and `get_repository_tree` — while the call-tool
handler behaves identically under both flag values, so a write operation
such as `create_or_update_file` still executes (its API adapter is called
and its result returned) when invoked in readonly mode. -/
theorem readonly_flag_only_restricts_advertised_catalog :
    ((listTools true).map ToolDecl.name =
      ["search_repositories", "get_file_contents", "get_repository_tree"]) ∧
    ((listTools false).map ToolDecl.name =
      ["create_or_update_file", "search_repositories", "create_repository",
        "get_file_contents", "get_repository_tree", "push_files", "create_issue",
        "create_merge_request", "fork_repository", "create_branch"]) ∧
    (∀ (b b' : Bool) (api : GitLabApi) (req : CallToolRequest),
      (handleCallToolSt ⟨b⟩ api req).1 = (handleCallToolSt ⟨b'⟩ api req).1) ∧
    (∀ (api : GitLabApi) (j : Json) (a : CreateOrUpdateFileArgs) (v : Json),
      CreateOrUpdateFileSchema.parse j = .ok a →
      api.createOrUpdateFile a.project_id a.file_path a.content a.commit_message
        a.branch a.previous_path = .ok v →
      (handleCallToolSt ⟨true⟩ api (mkReq "create_or_update_file" j)).1 =
        (.ok (textResponse (jsonStringify v)),
          [.createOrUpdateFile a.project_id a.file_path a.content a.commit_message
            a.branch a.previous_path])) := by
  refine ⟨rfl, rfl, fun b b' api req => rfl, fun api j a v hp hv => ?_⟩
  show handleCallTool api (mkReq "create_or_update_file" j) = _
  rw [handleCallTool_createFile, handleCreateOrUpdateFile_ok api j a v hp hv]

/-- Witness for C2: under `--readonly`, a concrete `create_or_update_file`
call still reaches the API and forwards its result. -/
theorem readonly_flag_only_restricts_advertised_catalog_witness :
    (handleCallToolSt ⟨true⟩ okApi (mkReq "create_or_update_file" sampleFileArgs)).1 =
      (.ok (textResponse (jsonStringify sampleResult)),
        [.createOrUpdateFile "42" "README.md" "hi" "init" "main" none]) :=
  readonly_flag_only_restricts_advertised_catalog.2.2.2 okApi sampleFileArgs
    ⟨"42", "README.md", "hi", "init", "main", none⟩ sampleResult rfl rfl

theorem join_cons (s : String) (l : List String) :
    String.join (s :: l) = s ++ String.join l := by
  simp [String.join_eq, String.ext_iff]

theorem foldl_append_eq_join {α : Type} (f : α → String) (l : List α) (s : String) :
    l.foldl (fun acc x => acc ++ f x) s = s ++ String.join (l.map f) := by
  induction l generalizing s with
  | nil => simp [String.join]
  | cons x xs ih => simp [ih, join_cons, String.append_assoc]

theorem formatTree_eq_join (tree : List TreeItem) :
    formatTree tree = "Repository directory structure:\n\n" ++
      String.join ((tree.filter fun i => i.type = "tree").map fun d => "Folder: " ++ d.path ++ "/\n") ++
      String.join ((tree.filter fun i => i.type = "blob").map fun f => "File: " ++ f.path ++ "\n") := by
  simp [formatTree, foldl_append_eq_join, String.append_assoc]

theorem filter_tree_of_filter_kept (l : List TreeItem) :
    ((l.filter fun i => i.type = "tree" ∨ i.type = "blob").filter fun i => i.type = "tree") =
      l.filter fun i => i.type = "tree" := by
  rw [List.filter_filter]
  apply List.filter_congr
  intro a _
  by_cases h : a.type = "tree" <;> simp [h]

theorem filter_blob_of_filter_kept (l : List TreeItem) :
    ((l.filter fun i => i.type = "tree" ∨ i.type = "blob").filter fun i => i.type = "blob") =
      l.filter fun i => i.type = "blob" := by
  rw [List.filter_filter]
  apply List.filter_congr
  intro a _
  by_cases h : a.type = "blob" <;> simp [h]

/-- A GitLab API double returning a tree with a folder, two files and a
`commit` entry, for concrete `get_repository_tree` runs. -/
def mixedTreeApi : GitLabApi :=
  { okApi with
    getRepositoryTree := fun _ _ _ _ _ =>
      .ok [⟨"blob", "a.txt"⟩, ⟨"tree", "docs"⟩, ⟨"commit", "vendored"⟩, ⟨"blob", "b.txt"⟩] }

/-- C8: the `get_repository_tree` response text lists the entries of type
`tree` first (`Folder: <path>/`), then the entries of type `blob`
(`File: <path>`), each group in the API's relative order (a sublist of the
returned tree), entries of any other type being silently dropped (the
output is invariant under removing them); and the handler returns exactly
this formatting of the API's tree. -/
theorem get_repository_tree_output_groups_and_drops :
    (∀ tree : List TreeItem,
      formatTree tree = "Repository directory structure:\n\n" ++
        String.join ((tree.filter fun i => i.type = "tree").map fun d => "Folder: " ++ d.path ++ "/\n") ++
        String.join ((tree.filter fun i => i.type = "blob").map fun f => "File: " ++ f.path ++ "\n")) ∧
    (∀ tree : List TreeItem,
      (tree.filter fun i => i.type = "tree").Sublist tree ∧
      (tree.filter fun i => i.type = "blob").Sublist tree) ∧
    (∀ tree : List TreeItem,
      formatTree tree = formatTree (tree.filter fun i => i.type = "tree" ∨ i.type = "blob")) ∧
    (∀ (api : GitLabApi) (j : Json) (a : GetRepositoryTreeArgs) (tree : List TreeItem),
      GetRepositoryTreeSchema.parse j = .ok a →
      api.getRepositoryTree a.project_id a.path a.ref a.recursive a.per_page = .ok tree →
      (handleCallTool api (mkReq "get_repository_tree" j)).1 =
        .ok (textResponse (formatTree tree))) := by
  refine ⟨formatTree_eq_join,
    fun tree => ⟨List.filter_sublist tree, List.filter_sublist tree⟩,
    fun tree => ?_, fun api j a tree hp hv => ?_⟩
  · rw [formatTree_eq_join, formatTree_eq_join,
      filter_tree_of_filter_kept, filter_blob_of_filter_kept]
  · rw [handleCallTool_getTree, handleGetRepositoryTree_ok api j a tree hp hv]

/-- Witness for C8: on a concrete tree with a folder, two files and a
`commit` entry, the handler emits the folder line first, then the file
lines in order, and drops the `commit` entry. -/
theorem get_repository_tree_output_groups_and_drops_witness :
    (handleCallTool mixedTreeApi
        (mkReq "get_repository_tree" (.obj [("project_id", .str "42")]))).1 =
      .ok (textResponse
        "Repository directory structure:\n\nFolder: docs/\nFile: a.txt\nFile: b.txt\n") :=
  get_repository_tree_output_groups_and_drops.2.2.2 mixedTreeApi
    (.obj [("project_id", .str "42")]) ⟨"42", none, none, none, none⟩
    [⟨"blob", "a.txt"⟩, ⟨"tree", "docs"⟩, ⟨"commit", "vendored"⟩, ⟨"blob", "b.txt"⟩] rfl rfl

/-- C5: whenever a tool call's arguments fail schema validation, the call
fails with a message naming each offending field: the dotted path of every
validation issue joined with its message, prefixed by
`Invalid arguments: ` — for each of the ten tools. -/
theorem invalid_arguments_reported_with_field_level_messages :
    (∀ (api : GitLabApi) (j : Json) (issues : List ZodIssue),
      ForkRepositorySchema.parse j = .error issues →
      (handleCallTool api (mkReq "fork_repository" j)).1 =
        .error (.message ("Invalid arguments: " ++ String.intercalate ", "
          (issues.map fun i => String.intercalate "." i.path ++ ": " ++ i.message)))) ∧
    (∀ (api : GitLabApi) (j : Json) (issues : List ZodIssue),
      CreateBranchSchema.parse j = .error issues →
      (handleCallTool api (mkReq "create_branch" j)).1 =
        .error (.message ("Invalid arguments: " ++ String.intercalate ", "
          (issues.map fun i => String.intercalate "." i.path ++ ": " ++ i.message)))) ∧
    (∀ (api : GitLabApi) (j : Json) (issues : List ZodIssue),
      SearchRepositoriesSchema.parse j = .error issues →
      (handleCallTool api (mkReq "search_repositories" j)).1 =
        .error (.message ("Invalid arguments: " ++ String.intercalate ", "
          (issues.map fun i => String.intercalate "." i.path ++ ": " ++ i.message)))) ∧
    (∀ (api : GitLabApi) (j : Json) (issues : List ZodIssue),
      CreateRepositorySchema.parse j = .error issues →
      (handleCallTool api (mkReq "create_repository" j)).1 =
        .error (.message ("Invalid arguments: " ++ String.intercalate ", "
          (issues.map fun i => String.intercalate "." i.path ++ ": " ++ i.message)))) ∧
    (∀ (api : GitLabApi) (j : Json) (issues : List ZodIssue),
      GetFileContentsSchema.parse j = .error issues →
      (handleCallTool api (mkReq "get_file_contents" j)).1 =
        .error (.message ("Invalid arguments: " ++ String.intercalate ", "
          (issues.map fun i => String.intercalate "." i.path ++ ": " ++ i.message)))) ∧
    (∀ (api : GitLabApi) (j : Json) (issues : List ZodIssue),
      GetRepositoryTreeSchema.parse j = .error issues →
      (handleCallTool api (mkReq "get_repository_tree" j)).1 =
        .error (.message ("Invalid arguments: " ++ String.intercalate ", "
          (issues.map fun i => String.intercalate "." i.path ++ ": " ++ i.message)))) ∧
    (∀ (api : GitLabApi) (j : Json) (issues : List ZodIssue),
      CreateOrUpdateFileSchema.parse j = .error issues →
      (handleCallTool api (mkReq "create_or_update_file" j)).1 =
        .error (.message ("Invalid arguments: " ++ String.intercalate ", "
          (issues.map fun i => String.intercalate "." i.path ++ ": " ++ i.message)))) ∧
    (∀ (api : GitLabApi) (j : Json) (issues : List ZodIssue),
      PushFilesSchema.parse j = .error issues →
      (handleCallTool api (mkReq "push_files" j)).1 =
        .error (.message ("Invalid arguments: " ++ String.intercalate ", "
          (issues.map fun i => String.intercalate "." i.path ++ ": " ++ i.message)))) ∧
    (∀ (api : GitLabApi) (j : Json) (issues : List ZodIssue),
      CreateIssueSchema.parse j = .error issues →
      (handleCallTool api (mkReq "create_issue" j)).1 =
        .error (.message ("Invalid arguments: " ++ String.intercalate ", "
          (issues.map fun i => String.intercalate "." i.path ++ ": " ++ i.message)))) ∧
    (∀ (api : GitLabApi) (j : Json) (issues : List ZodIssue),
      CreateMergeRequestSchema.parse j = .error issues →
      (handleCallTool api (mkReq "create_merge_request" j)).1 =
        .error (.message ("Invalid arguments: " ++ String.intercalate ", "
          (issues.map fun i => String.intercalate "." i.path ++ ": " ++ i.message)))) := by
  refine ⟨fun api j issues h => ?_, fun api j issues h => ?_, fun api j issues h => ?_,
    fun api j issues h => ?_, fun api j issues h => ?_, fun api j issues h => ?_,
    fun api j issues h => ?_, fun api j issues h => ?_, fun api j issues h => ?_,
    fun api j issues h => ?_⟩
  · rw [handleCallTool_fork, handleForkRepository_invalid api j issues h]; rfl
  · rw [handleCallTool_createBranch, handleCreateBranch_invalid api j issues h]; rfl
  · rw [handleCallTool_search, handleSearchRepositories_invalid api j issues h]; rfl
  · rw [handleCallTool_createRepo, handleCreateRepository_invalid api j issues h]; rfl
  · rw [handleCallTool_getFile, handleGetFileContents_invalid api j issues h]; rfl
  · rw [handleCallTool_getTree, handleGetRepositoryTree_invalid api j issues h]; rfl
  · rw [handleCallTool_createFile, handleCreateOrUpdateFile_invalid api j issues h]; rfl
  · rw [handleCallTool_pushFiles, handlePushFiles_invalid api j issues h]; rfl
  · rw [handleCallTool_createIssue, handleCreateIssue_invalid api j issues h]; rfl
  · rw [handleCallTool_createMR, handleCreateMergeRequest_invalid api j issues h]; rfl

/-- Witness for C5: a `create_branch` call missing both required fields is
rejected with a message naming both, comma-separated and dot-pathed. -/
theorem invalid_arguments_reported_with_field_level_messages_witness :
    (handleCallTool okApi (mkReq "create_branch" (.obj [("ref", .str "main")]))).1 =
      .error (.message ("Invalid arguments: " ++ String.intercalate ", "
        (([⟨["project_id"], "Required"⟩, ⟨["branch"], "Required"⟩] : List ZodIssue).map
          fun i => String.intercalate "." i.path ++ ": " ++ i.message))) :=
  invalid_arguments_reported_with_field_level_messages.2.1 okApi
    (.obj [("ref", .str "main")])
    ([⟨["project_id"], "Required"⟩, ⟨["branch"], "Required"⟩] : List ZodIssue) rfl

/-- C7: argument validation precedes any GitLab API call — for each of the
ten tools, when the supplied arguments fail the operation's schema, the
list of issued API calls is empty: no API function is invoked and no HTTP
request is made. -/
theorem validation_failure_issues_no_api_call :
    (∀ (api : GitLabApi) (j : Json) (issues : List ZodIssue),
      ForkRepositorySchema.parse j = .error issues →
      (handleCallTool api (mkReq "fork_repository" j)).2 = []) ∧
    (∀ (api : GitLabApi) (j : Json) (issues : List ZodIssue),
      CreateBranchSchema.parse j = .error issues →
      (handleCallTool api (mkReq "create_branch" j)).2 = []) ∧
    (∀ (api : GitLabApi) (j : Json) (issues : List ZodIssue),
      SearchRepositoriesSchema.parse j = .error issues →
      (handleCallTool api (mkReq "search_repositories" j)).2 = []) ∧
    (∀ (api : GitLabApi) (j : Json) (issues : List ZodIssue),
      CreateRepositorySchema.parse j = .error issues →
      (handleCallTool api (mkReq "create_repository" j)).2 = []) ∧
    (∀ (api : GitLabApi) (j : Json) (issues : List ZodIssue),
      GetFileContentsSchema.parse j = .error issues →
      (handleCallTool api (mkReq "get_file_contents" j)).2 = []) ∧
    (∀ (api : GitLabApi) (j : Json) (issues : List ZodIssue),
      GetRepositoryTreeSchema.parse j = .error issues →
      (handleCallTool api (mkReq "get_repository_tree" j)).2 = []) ∧
    (∀ (api : GitLabApi) (j : Json) (issues : List ZodIssue),
      CreateOrUpdateFileSchema.parse j = .error issues →
      (handleCallTool api (mkReq "create_or_update_file" j)).2 = []) ∧
    (∀ (api : GitLabApi) (j : Json) (issues : List ZodIssue),
      PushFilesSchema.parse j = .error issues →
      (handleCallTool api (mkReq "push_files" j)).2 = []) ∧
    (∀ (api : GitLabApi) (j : Json) (issues : List ZodIssue),
      CreateIssueSchema.parse j = .error issues →
      (handleCallTool api (mkReq "create_issue" j)).2 = []) ∧
    (∀ (api : GitLabApi) (j : Json) (issues : List ZodIssue),
      CreateMergeRequestSchema.parse j = .error issues →
      (handleCallTool api (mkReq "create_merge_request" j)).2 = []) := by
  refine ⟨fun api j issues h => ?_, fun api j issues h => ?_, fun api j issues h => ?_,
    fun api j issues h => ?_, fun api j issues h => ?_, fun api j issues h => ?_,
    fun api j issues h => ?_, fun api j issues h => ?_, fun api j issues h => ?_,
    fun api j issues h => ?_⟩
  · rw [handleCallTool_fork, handleForkRepository_invalid api j issues h]
  · rw [handleCallTool_createBranch, handleCreateBranch_invalid api j issues h]
  · rw [handleCallTool_search, handleSearchRepositories_invalid api j issues h]
  · rw [handleCallTool_createRepo, handleCreateRepository_invalid api j issues h]
  · rw [handleCallTool_getFile, handleGetFileContents_invalid api j issues h]
  · rw [handleCallTool_getTree, handleGetRepositoryTree_invalid api j issues h]
  · rw [handleCallTool_createFile, handleCreateOrUpdateFile_invalid api j issues h]
  · rw [handleCallTool_pushFiles, handlePushFiles_invalid api j issues h]
  · rw [handleCallTool_createIssue, handleCreateIssue_invalid api j issues h]
  · rw [handleCallTool_createMR, handleCreateMergeRequest_invalid api j issues h]

/-- Witness for C7: a `create_or_update_file` call whose `content` field
is a number (not a string) and whose other required fields are missing is
rejected with no API call issued. -/
theorem validation_failure_issues_no_api_call_witness :
    (handleCallTool okApi (mkReq "create_or_update_file"
        (.obj [("project_id", .str "42"), ("content", .num 7)]))).2 = [] :=
  validation_failure_issues_no_api_call.2.2.2.2.2.2.1 okApi
    (.obj [("project_id", .str "42"), ("content", .num 7)])
    ([⟨["file_path"], "Required"⟩, ⟨["content"], "Expected string"⟩,
      ⟨["commit_message"], "Required"⟩, ⟨["branch"], "Required"⟩] : List ZodIssue) rfl

/-- C6: any failure other than schema validation — in particular an opaque
failure of the GitLab API adapter — is rethrown to the caller unmodified
(the same error value), and the operation is never retried: the failed
call appears exactly once in the outgoing traffic.  Stated for the main
API call of each of the ten tools — for `create_branch` on both the
supplied-ref path and the default-branch path, where the lookup has
succeeded and the branch creation then fails — and for the default-branch
lookup itself. -/
theorem api_failures_rethrown_unmodified_without_retry :
    (∀ (api : GitLabApi) (j : Json) (a : ForkRepositoryArgs) (e : ApiError),
      ForkRepositorySchema.parse j = .ok a →
      api.forkProject a.project_id a.nspace = .error e →
      handleCallTool api (mkReq "fork_repository" j) =
        (.error (.apiError e), [.forkProject a.project_id a.nspace])) ∧
    (∀ (api : GitLabApi) (j : Json) (a : CreateBranchArgs) (r : String) (e : ApiError),
      CreateBranchSchema.parse j = .ok a → a.ref = some r → r ≠ "" →
      api.createBranch a.project_id ⟨a.branch, r⟩ = .error e →
      handleCallTool api (mkReq "create_branch" j) =
        (.error (.apiError e), [.createBranch a.project_id ⟨a.branch, r⟩])) ∧
    (∀ (api : GitLabApi) (j : Json) (a : CreateBranchArgs) (e : ApiError),
      CreateBranchSchema.parse j = .ok a → a.ref.getD "" = "" →
      api.getDefaultBranchRef a.project_id = .error e →
      handleCallTool api (mkReq "create_branch" j) =
        (.error (.apiError e), [.getDefaultBranchRef a.project_id])) ∧
    (∀ (api : GitLabApi) (j : Json) (a : CreateBranchArgs) (d : String) (e : ApiError),
      CreateBranchSchema.parse j = .ok a → a.ref.getD "" = "" →
      api.getDefaultBranchRef a.project_id = .ok d →
      api.createBranch a.project_id ⟨a.branch, d⟩ = .error e →
      handleCallTool api (mkReq "create_branch" j) =
        (.error (.apiError e),
          [.getDefaultBranchRef a.project_id,
            .createBranch a.project_id ⟨a.branch, d⟩])) ∧
    (∀ (api : GitLabApi) (j : Json) (a : SearchRepositoriesArgs) (e : ApiError),
      SearchRepositoriesSchema.parse j = .ok a →
      api.searchProjects a.search a.page a.per_page = .error e →
      handleCallTool api (mkReq "search_repositories" j) =
        (.error (.apiError e), [.searchProjects a.search a.page a.per_page])) ∧
    (∀ (api : GitLabApi) (j : Json) (a : CreateRepositoryArgs) (e : ApiError),
      CreateRepositorySchema.parse j = .ok a →
      api.createRepository a = .error e →
      handleCallTool api (mkReq "create_repository" j) =
        (.error (.apiError e), [.createRepository a])) ∧
    (∀ (api : GitLabApi) (j : Json) (a : GetFileContentsArgs) (e : ApiError),
      GetFileContentsSchema.parse j = .ok a →
      api.getFileContents a.project_id a.file_path a.ref = .error e →
      handleCallTool api (mkReq "get_file_contents" j) =
        (.error (.apiError e), [.getFileContents a.project_id a.file_path a.ref])) ∧
    (∀ (api : GitLabApi) (j : Json) (a : GetRepositoryTreeArgs) (e : ApiError),
      GetRepositoryTreeSchema.parse j = .ok a →
      api.getRepositoryTree a.project_id a.path a.ref a.recursive a.per_page = .error e →
      handleCallTool api (mkReq "get_repository_tree" j) =
        (.error (.apiError e),
          [.getRepositoryTree a.project_id a.path a.ref a.recursive a.per_page])) ∧
    (∀ (api : GitLabApi) (j : Json) (a : CreateOrUpdateFileArgs) (e : ApiError),
      CreateOrUpdateFileSchema.parse j = .ok a →
      api.createOrUpdateFile a.project_id a.file_path a.content a.commit_message
        a.branch a.previous_path = .error e →
      handleCallTool api (mkReq "create_or_update_file" j) =
        (.error (.apiError e),
          [.createOrUpdateFile a.project_id a.file_path a.content a.commit_message
            a.branch a.previous_path])) ∧
    (∀ (api : GitLabApi) (j : Json) (a : PushFilesArgs) (e : ApiError),
      PushFilesSchema.parse j = .ok a →
      api.createCommit a.project_id a.commit_message a.branch
        (a.files.map fun f => CommitFile.mk f.file_path f.content) = .error e →
      handleCallTool api (mkReq "push_files" j) =
        (.error (.apiError e),
          [.createCommit a.project_id a.commit_message a.branch
            (a.files.map fun f => CommitFile.mk f.file_path f.content)])) ∧
    (∀ (api : GitLabApi) (j : Json) (a : CreateIssueArgs) (e : ApiError),
      CreateIssueSchema.parse j = .ok a →
      api.createIssue a.project_id
        ⟨a.title, a.description, a.assignee_ids, a.labels, a.milestone_id⟩ = .error e →
      handleCallTool api (mkReq "create_issue" j) =
        (.error (.apiError e),
          [.createIssue a.project_id
            ⟨a.title, a.description, a.assignee_ids, a.labels, a.milestone_id⟩])) ∧
    (∀ (api : GitLabApi) (j : Json) (a : CreateMergeRequestArgs) (e : ApiError),
      CreateMergeRequestSchema.parse j = .ok a →
      api.createMergeRequest a.project_id
        ⟨a.title, a.description, a.source_branch, a.target_branch, a.draft,
          a.allow_collaboration⟩ = .error e →
      handleCallTool api (mkReq "create_merge_request" j) =
        (.error (.apiError e),
          [.createMergeRequest a.project_id
            ⟨a.title, a.description, a.source_branch, a.target_branch, a.draft,
              a.allow_collaboration⟩])) := by
  refine ⟨fun api j a e hp hv => ?_, fun api j a r e hp hr hne hv => ?_,
    fun api j a e hp hr hd => ?_, fun api j a d e hp hr hd hv => ?_,
    fun api j a e hp hv => ?_, fun api j a e hp hv => ?_,
    fun api j a e hp hv => ?_, fun api j a e hp hv => ?_, fun api j a e hp hv => ?_,
    fun api j a e hp hv => ?_, fun api j a e hp hv => ?_, fun api j a e hp hv => ?_⟩
  · rw [handleCallTool_fork, handleForkRepository_err api j a e hp hv]
  · rw [handleCallTool_createBranch, handleCreateBranch_given_err api j a r e hp hr hne hv]
  · rw [handleCallTool_createBranch, handleCreateBranch_default_lookup_err api j a e hp hr hd]
  · rw [handleCallTool_createBranch, handleCreateBranch_default_err api j a d e hp hr hd hv]
  · rw [handleCallTool_search, handleSearchRepositories_err api j a e hp hv]
  · rw [handleCallTool_createRepo, handleCreateRepository_err api j a e hp hv]
  · rw [handleCallTool_getFile, handleGetFileContents_err api j a e hp hv]
  · rw [handleCallTool_getTree, handleGetRepositoryTree_err api j a e hp hv]
  · rw [handleCallTool_createFile, handleCreateOrUpdateFile_err api j a e hp hv]
  · rw [handleCallTool_pushFiles, handlePushFiles_err api j a e hp hv]
  · rw [handleCallTool_createIssue, handleCreateIssue_err api j a e hp hv]
  · rw [handleCallTool_createMR, handleCreateMergeRequest_err api j a e hp hv]

/-- A GitLab API double whose default-branch lookup succeeds while every
other adapter fails opaquely, reaching the failure of the branch-creation
call on the default-branch path of `create_branch`. -/
def lookupOnlyApi : GitLabApi :=
  { failApi with getDefaultBranchRef := fun _ => .ok "main" }

/-- Witness for C6: a concrete `fork_repository` call surfaces the fork
adapter's opaque error with the call issued exactly once; and a concrete
`create_branch` call with `ref` omitted, whose default-branch lookup
succeeded and whose branch creation then failed, surfaces that very error
with the failed creation call issued exactly once. -/
theorem api_failures_rethrown_unmodified_without_retry_witness :
    (handleCallTool failApi (mkReq "fork_repository" (.obj [("project_id", .str "42")])) =
      (.error (.apiError ⟨"boom"⟩), [.forkProject "42" none])) ∧
    (handleCallTool lookupOnlyApi (mkReq "create_branch"
        (.obj [("project_id", .str "42"), ("branch", .str "feature")])) =
      (.error (.apiError ⟨"boom"⟩),
        [.getDefaultBranchRef "42", .createBranch "42" ⟨"feature", "main"⟩])) :=
  ⟨api_failures_rethrown_unmodified_without_retry.1 failApi
      (.obj [("project_id", .str "42")]) ⟨"42", none⟩ ⟨"boom"⟩ rfl rfl,
    api_failures_rethrown_unmodified_without_retry.2.2.2.1 lookupOnlyApi
      (.obj [("project_id", .str "42"), ("branch", .str "feature")])
      ⟨"42", "feature", none⟩ "main" ⟨"boom"⟩ rfl rfl rfl rfl⟩

/-- Counterexample to C1: a concrete `get_repository_tree` call returns a
reformatted textual listing, not the GitLab API result serialized as JSON —
the response text differs from the serialization of the tree the API
returned. -/
theorem get_repository_tree_does_not_forward_api_result :
    (handleCallTool okApi (mkReq "get_repository_tree" (.obj [("project_id", .str "42")]))).1 =
      .ok (textResponse "Repository directory structure:\n\nFolder: docs/\nFile: a.txt\n") ∧
    "Repository directory structure:\n\nFolder: docs/\nFile: a.txt\n" ≠
      jsonStringify (treeToJson [⟨"tree", "docs"⟩, ⟨"blob", "a.txt"⟩]) :=
  ⟨rfl, by decide⟩

/-- C1 as amended: for every tool operation except `get_repository_tree`,
a successful call returns the GitLab API result unchanged, serialized as
JSON text in the response envelope; `get_repository_tree` instead returns
a reformatted textual listing of the tree. -/
theorem successful_calls_forward_api_result_unchanged :
    (∀ (api : GitLabApi) (j : Json) (a : ForkRepositoryArgs) (v : Json),
      ForkRepositorySchema.parse j = .ok a →
      api.forkProject a.project_id a.nspace = .ok v →
      (handleCallTool api (mkReq "fork_repository" j)).1 =
        .ok (textResponse (jsonStringify v))) ∧
    (∀ (api : GitLabApi) (j : Json) (a : CreateBranchArgs) (r : String) (v : Json),
      CreateBranchSchema.parse j = .ok a → a.ref = some r → r ≠ "" →
      api.createBranch a.project_id ⟨a.branch, r⟩ = .ok v →
      (handleCallTool api (mkReq "create_branch" j)).1 =
        .ok (textResponse (jsonStringify v))) ∧
    (∀ (api : GitLabApi) (j : Json) (a : CreateBranchArgs) (d : String) (v : Json),
      CreateBranchSchema.parse j = .ok a → a.ref.getD "" = "" →
      api.getDefaultBranchRef a.project_id = .ok d →
      api.createBranch a.project_id ⟨a.branch, d⟩ = .ok v →
      (handleCallTool api (mkReq "create_branch" j)).1 =
        .ok (textResponse (jsonStringify v))) ∧
    (∀ (api : GitLabApi) (j : Json) (a : SearchRepositoriesArgs) (v : Json),
      SearchRepositoriesSchema.parse j = .ok a →
      api.searchProjects a.search a.page a.per_page = .ok v →
      (handleCallTool api (mkReq "search_repositories" j)).1 =
        .ok (textResponse (jsonStringify v))) ∧
    (∀ (api : GitLabApi) (j : Json) (a : CreateRepositoryArgs) (v : Json),
      CreateRepositorySchema.parse j = .ok a →
      api.createRepository a = .ok v →
      (handleCallTool api (mkReq "create_repository" j)).1 =
        .ok (textResponse (jsonStringify v))) ∧
    (∀ (api : GitLabApi) (j : Json) (a : GetFileContentsArgs) (v : Json),
      GetFileContentsSchema.parse j = .ok a →
      api.getFileContents a.project_id a.file_path a.ref = .ok v →
      (handleCallTool api (mkReq "get_file_contents" j)).1 =
        .ok (textResponse (jsonStringify v))) ∧
    (∀ (api : GitLabApi) (j : Json) (a : CreateOrUpdateFileArgs) (v : Json),
      CreateOrUpdateFileSchema.parse j = .ok a →
      api.createOrUpdateFile a.project_id a.file_path a.content a.commit_message
        a.branch a.previous_path = .ok v →
      (handleCallTool api (mkReq "create_or_update_file" j)).1 =
        .ok (textResponse (jsonStringify v))) ∧
    (∀ (api : GitLabApi) (j : Json) (a : PushFilesArgs) (v : Json),
      PushFilesSchema.parse j = .ok a →
      api.createCommit a.project_id a.commit_message a.branch
        (a.files.map fun f => CommitFile.mk f.file_path f.content) = .ok v →
      (handleCallTool api (mkReq "push_files" j)).1 =
        .ok (textResponse (jsonStringify v))) ∧
    (∀ (api : GitLabApi) (j : Json) (a : CreateIssueArgs) (v : Json),
      CreateIssueSchema.parse j = .ok a →
      api.createIssue a.project_id
        ⟨a.title, a.description, a.assignee_ids, a.labels, a.milestone_id⟩ = .ok v →
      (handleCallTool api (mkReq "create_issue" j)).1 =
        .ok (textResponse (jsonStringify v))) ∧
    (∀ (api : GitLabApi) (j : Json) (a : CreateMergeRequestArgs) (v : Json),
      CreateMergeRequestSchema.parse j = .ok a →
      api.createMergeRequest a.project_id
        ⟨a.title, a.description, a.source_branch, a.target_branch, a.draft,
          a.allow_collaboration⟩ = .ok v →
      (handleCallTool api (mkReq "create_merge_request" j)).1 =
        .ok (textResponse (jsonStringify v))) ∧
    (∀ (api : GitLabApi) (j : Json) (a : GetRepositoryTreeArgs) (tree : List TreeItem),
      GetRepositoryTreeSchema.parse j = .ok a →
      api.getRepositoryTree a.project_id a.path a.ref a.recursive a.per_page = .ok tree →
      (handleCallTool api (mkReq "get_repository_tree" j)).1 =
        .ok (textResponse (formatTree tree))) := by
  refine ⟨fun api j a v hp hv => ?_, fun api j a r v hp hr hne hv => ?_,
    fun api j a d v hp hr hd hv => ?_, fun api j a v hp hv => ?_,
    fun api j a v hp hv => ?_, fun api j a v hp hv => ?_, fun api j a v hp hv => ?_,
    fun api j a v hp hv => ?_, fun api j a v hp hv => ?_, fun api j a v hp hv => ?_,
    fun api j a tree hp hv => ?_⟩
  · rw [handleCallTool_fork, handleForkRepository_ok api j a v hp hv]
  · rw [handleCallTool_createBranch, handleCreateBranch_given_ok api j a r v hp hr hne hv]
  · rw [handleCallTool_createBranch, handleCreateBranch_default_ok api j a d v hp hr hd hv]
  · rw [handleCallTool_search, handleSearchRepositories_ok api j a v hp hv]
  · rw [handleCallTool_createRepo, handleCreateRepository_ok api j a v hp hv]
  · rw [handleCallTool_getFile, handleGetFileContents_ok api j a v hp hv]
  · rw [handleCallTool_createFile, handleCreateOrUpdateFile_ok api j a v hp hv]
  · rw [handleCallTool_pushFiles, handlePushFiles_ok api j a v hp hv]
  · rw [handleCallTool_createIssue, handleCreateIssue_ok api j a v hp hv]
  · rw [handleCallTool_createMR, handleCreateMergeRequest_ok api j a v hp hv]
  · rw [handleCallTool_getTree, handleGetRepositoryTree_ok api j a tree hp hv]

/-- Witness for the amended C1: a concrete `fork_repository` call returns
exactly the serialized API result. -/
theorem successful_calls_forward_api_result_unchanged_witness :
    (handleCallTool okApi (mkReq "fork_repository" (.obj [("project_id", .str "42")]))).1 =
      .ok (textResponse (jsonStringify sampleResult)) :=
  successful_calls_forward_api_result_unchanged.1 okApi
    (.obj [("project_id", .str "42")]) ⟨"42", none⟩ sampleResult rfl rfl

/-- Concrete `create_branch` arguments with the optional `ref` omitted. -/
def branchArgsNoRef : Json :=
  .obj [("project_id", .str "42"), ("branch", .str "feature")]

/-- Counterexample to C3: a concrete `create_branch` request with `ref`
omitted issues two outgoing GitLab API calls — the default-branch lookup
and the branch creation — not exactly one. -/
theorem create_branch_without_ref_issues_two_calls :
    (handleCallTool okApi (mkReq "create_branch" branchArgsNoRef)).2 =
      [.getDefaultBranchRef "42", .createBranch "42" ⟨"feature", "main"⟩] ∧
    ((handleCallTool okApi (mkReq "create_branch" branchArgsNoRef)).2).length ≠ 1 :=
  ⟨rfl, by decide⟩

/-- C3 as amended: handling one valid request issues exactly one outgoing
GitLab API call — whether the call succeeds or fails — for every tool
except `create_branch`; `create_branch` issues one call when a non-empty
`ref` is supplied, and otherwise between one and two (exactly two once the
default-branch lookup succeeds: the lookup and the branch creation). -/
theorem valid_requests_issue_exactly_one_api_call :
    (∀ (api : GitLabApi) (j : Json) (a : ForkRepositoryArgs),
      ForkRepositorySchema.parse j = .ok a →
      ((handleCallTool api (mkReq "fork_repository" j)).2).length = 1) ∧
    (∀ (api : GitLabApi) (j : Json) (a : SearchRepositoriesArgs),
      SearchRepositoriesSchema.parse j = .ok a →
      ((handleCallTool api (mkReq "search_repositories" j)).2).length = 1) ∧
    (∀ (api : GitLabApi) (j : Json) (a : CreateRepositoryArgs),
      CreateRepositorySchema.parse j = .ok a →
      ((handleCallTool api (mkReq "create_repository" j)).2).length = 1) ∧
    (∀ (api : GitLabApi) (j : Json) (a : GetFileContentsArgs),
      GetFileContentsSchema.parse j = .ok a →
      ((handleCallTool api (mkReq "get_file_contents" j)).2).length = 1) ∧
    (∀ (api : GitLabApi) (j : Json) (a : GetRepositoryTreeArgs),
      GetRepositoryTreeSchema.parse j = .ok a →
      ((handleCallTool api (mkReq "get_repository_tree" j)).2).length = 1) ∧
    (∀ (api : GitLabApi) (j : Json) (a : CreateOrUpdateFileArgs),
      CreateOrUpdateFileSchema.parse j = .ok a →
      ((handleCallTool api (mkReq "create_or_update_file" j)).2).length = 1) ∧
    (∀ (api : GitLabApi) (j : Json) (a : PushFilesArgs),
      PushFilesSchema.parse j = .ok a →
      ((handleCallTool api (mkReq "push_files" j)).2).length = 1) ∧
    (∀ (api : GitLabApi) (j : Json) (a : CreateIssueArgs),
      CreateIssueSchema.parse j = .ok a →
      ((handleCallTool api (mkReq "create_issue" j)).2).length = 1) ∧
    (∀ (api : GitLabApi) (j : Json) (a : CreateMergeRequestArgs),
      CreateMergeRequestSchema.parse j = .ok a →
      ((handleCallTool api (mkReq "create_merge_request" j)).2).length = 1) ∧
    (∀ (api : GitLabApi) (j : Json) (a : CreateBranchArgs) (r : String),
      CreateBranchSchema.parse j = .ok a → a.ref = some r → r ≠ "" →
      ((handleCallTool api (mkReq "create_branch" j)).2).length = 1) ∧
    (∀ (api : GitLabApi) (j : Json) (a : CreateBranchArgs),
      CreateBranchSchema.parse j = .ok a → a.ref.getD "" = "" →
      1 ≤ ((handleCallTool api (mkReq "create_branch" j)).2).length ∧
      ((handleCallTool api (mkReq "create_branch" j)).2).length ≤ 2) ∧
    (∀ (api : GitLabApi) (j : Json) (a : CreateBranchArgs) (d : String),
      CreateBranchSchema.parse j = .ok a → a.ref.getD "" = "" →
      api.getDefaultBranchRef a.project_id = .ok d →
      ((handleCallTool api (mkReq "create_branch" j)).2).length = 2) := by
  refine ⟨fun api j a hp => ?_, fun api j a hp => ?_, fun api j a hp => ?_,
    fun api j a hp => ?_, fun api j a hp => ?_, fun api j a hp => ?_,
    fun api j a hp => ?_, fun api j a hp => ?_, fun api j a hp => ?_,
    fun api j a r hp hr hne => ?_, fun api j a hp hr => ?_,
    fun api j a d hp hr hd => ?_⟩
  · cases hv : api.forkProject a.project_id a.nspace with
    | error e => simp [handleCallTool_fork, handleForkRepository_err api j a e hp hv]
    | ok v => simp [handleCallTool_fork, handleForkRepository_ok api j a v hp hv]
  · cases hv : api.searchProjects a.search a.page a.per_page with
    | error e => simp [handleCallTool_search, handleSearchRepositories_err api j a e hp hv]
    | ok v => simp [handleCallTool_search, handleSearchRepositories_ok api j a v hp hv]
  · cases hv : api.createRepository a with
    | error e => simp [handleCallTool_createRepo, handleCreateRepository_err api j a e hp hv]
    | ok v => simp [handleCallTool_createRepo, handleCreateRepository_ok api j a v hp hv]
  · cases hv : api.getFileContents a.project_id a.file_path a.ref with
    | error e => simp [handleCallTool_getFile, handleGetFileContents_err api j a e hp hv]
    | ok v => simp [handleCallTool_getFile, handleGetFileContents_ok api j a v hp hv]
  · cases hv : api.getRepositoryTree a.project_id a.path a.ref a.recursive a.per_page with
    | error e => simp [handleCallTool_getTree, handleGetRepositoryTree_err api j a e hp hv]
    | ok tree => simp [handleCallTool_getTree, handleGetRepositoryTree_ok api j a tree hp hv]
  · cases hv : api.createOrUpdateFile a.project_id a.file_path a.content a.commit_message
        a.branch a.previous_path with
    | error e => simp [handleCallTool_createFile, handleCreateOrUpdateFile_err api j a e hp hv]
    | ok v => simp [handleCallTool_createFile, handleCreateOrUpdateFile_ok api j a v hp hv]
  · cases hv : api.createCommit a.project_id a.commit_message a.branch
        (a.files.map fun f => CommitFile.mk f.file_path f.content) with
    | error e => simp [handleCallTool_pushFiles, handlePushFiles_err api j a e hp hv]
    | ok v => simp [handleCallTool_pushFiles, handlePushFiles_ok api j a v hp hv]
  · cases hv : api.createIssue a.project_id
        ⟨a.title, a.description, a.assignee_ids, a.labels, a.milestone_id⟩ with
    | error e => simp [handleCallTool_createIssue, handleCreateIssue_err api j a e hp hv]
    | ok v => simp [handleCallTool_createIssue, handleCreateIssue_ok api j a v hp hv]
  · cases hv : api.createMergeRequest a.project_id
        ⟨a.title, a.description, a.source_branch, a.target_branch, a.draft,
          a.allow_collaboration⟩ with
    | error e => simp [handleCallTool_createMR, handleCreateMergeRequest_err api j a e hp hv]
    | ok v => simp [handleCallTool_createMR, handleCreateMergeRequest_ok api j a v hp hv]
  · cases hv : api.createBranch a.project_id ⟨a.branch, r⟩ with
    | error e =>
        simp [handleCallTool_createBranch, handleCreateBranch_given_err api j a r e hp hr hne hv]
    | ok v =>
        simp [handleCallTool_createBranch, handleCreateBranch_given_ok api j a r v hp hr hne hv]
  · cases hd : api.getDefaultBranchRef a.project_id with
    | error e =>
        simp [handleCallTool_createBranch,
          handleCreateBranch_default_lookup_err api j a e hp hr hd]
    | ok d =>
        cases hv : api.createBranch a.project_id ⟨a.branch, d⟩ with
        | error e =>
            simp [handleCallTool_createBranch,
              handleCreateBranch_default_err api j a d e hp hr hd hv]
        | ok v =>
            simp [handleCallTool_createBranch,
              handleCreateBranch_default_ok api j a d v hp hr hd hv]
  · cases hv : api.createBranch a.project_id ⟨a.branch, d⟩ with
    | error e =>
        simp [handleCallTool_createBranch,
          handleCreateBranch_default_err api j a d e hp hr hd hv]
    | ok v =>
        simp [handleCallTool_createBranch,
          handleCreateBranch_default_ok api j a d v hp hr hd hv]

/-- Witness for the amended C3: a concrete `fork_repository` call issues
exactly one API call, and a concrete `create_branch` call with `ref`
omitted issues exactly two once the default-branch lookup succeeded. -/
theorem valid_requests_issue_exactly_one_api_call_witness :
    ((handleCallTool okApi (mkReq "fork_repository" (.obj [("project_id", .str "7")]))).2).length = 1 ∧
    ((handleCallTool okApi (mkReq "create_branch" branchArgsNoRef)).2).length = 2 :=
  ⟨valid_requests_issue_exactly_one_api_call.1 okApi
      (.obj [("project_id", .str "7")]) ⟨"7", none⟩ rfl,
    valid_requests_issue_exactly_one_api_call.2.2.2.2.2.2.2.2.2.2.2 okApi
      branchArgsNoRef ⟨"42", "feature", none⟩ "main" rfl rfl rfl⟩

/-- Concrete `create_branch` arguments supplying `ref` as the empty
string. -/
def branchArgsEmptyRef : Json :=
  .obj [("project_id", .str "42"), ("branch", .str "feature"), ("ref", .str "")]

/-- Counterexample to C4: when `ref` is supplied as the empty string, the
schema accepts it (`ref` is present, `some ""`), yet the handler consults
the project's default branch and uses it — the supplied ref is not used as
given — because the code's `if (!ref)` is a JS falsy test. -/
theorem supplied_empty_ref_still_consults_default_branch :
    CreateBranchSchema.parse branchArgsEmptyRef = .ok ⟨"42", "feature", some ""⟩ ∧
    (handleCallTool okApi (mkReq "create_branch" branchArgsEmptyRef)).2 =
      [.getDefaultBranchRef "42", .createBranch "42" ⟨"feature", "main"⟩] :=
  ⟨rfl, rfl⟩

/-- C4 as amended: when `ref` is omitted — or supplied as the empty
string, which the JS falsy test treats the same way — `create_branch`
first resolves the project's default branch and uses it as the source ref
of the branch-creation call; when a non-empty `ref` is supplied, it is
used as given and the default branch is not consulted. -/
theorem create_branch_defaults_ref_to_default_branch :
    (∀ (api : GitLabApi) (j : Json) (a : CreateBranchArgs) (d : String),
      CreateBranchSchema.parse j = .ok a → a.ref = none →
      api.getDefaultBranchRef a.project_id = .ok d →
      (handleCallTool api (mkReq "create_branch" j)).2 =
        [.getDefaultBranchRef a.project_id, .createBranch a.project_id ⟨a.branch, d⟩]) ∧
    (∀ (api : GitLabApi) (j : Json) (a : CreateBranchArgs) (d : String),
      CreateBranchSchema.parse j = .ok a → a.ref = some "" →
      api.getDefaultBranchRef a.project_id = .ok d →
      (handleCallTool api (mkReq "create_branch" j)).2 =
        [.getDefaultBranchRef a.project_id, .createBranch a.project_id ⟨a.branch, d⟩]) ∧
    (∀ (api : GitLabApi) (j : Json) (a : CreateBranchArgs) (r : String),
      CreateBranchSchema.parse j = .ok a → a.ref = some r → r ≠ "" →
      (handleCallTool api (mkReq "create_branch" j)).2 =
        [.createBranch a.project_id ⟨a.branch, r⟩]) := by
  refine ⟨fun api j a d hp hr hd => ?_, fun api j a d hp hr hd => ?_,
    fun api j a r hp hr hne => ?_⟩
  · have hr' : a.ref.getD "" = "" := by simp [hr]
    cases hv : api.createBranch a.project_id ⟨a.branch, d⟩ with
    | error e =>
        simp [handleCallTool_createBranch,
          handleCreateBranch_default_err api j a d e hp hr' hd hv]
    | ok v =>
        simp [handleCallTool_createBranch,
          handleCreateBranch_default_ok api j a d v hp hr' hd hv]
  · have hr' : a.ref.getD "" = "" := by simp [hr]
    cases hv : api.createBranch a.project_id ⟨a.branch, d⟩ with
    | error e =>
        simp [handleCallTool_createBranch,
          handleCreateBranch_default_err api j a d e hp hr' hd hv]
    | ok v =>
        simp [handleCallTool_createBranch,
          handleCreateBranch_default_ok api j a d v hp hr' hd hv]
  · cases hv : api.createBranch a.project_id ⟨a.branch, r⟩ with
    | error e =>
        simp [handleCallTool_createBranch,
          handleCreateBranch_given_err api j a r e hp hr hne hv]
    | ok v =>
        simp [handleCallTool_createBranch,
          handleCreateBranch_given_ok api j a r v hp hr hne hv]

/-- Witness for the amended C4: a concrete `create_branch` call omitting
`ref` resolves the default branch `main` and creates the branch from it;
one supplying `ref: "dev"` creates the branch from `dev` directly. -/
theorem create_branch_defaults_ref_to_default_branch_witness :
    (handleCallTool okApi (mkReq "create_branch" branchArgsNoRef)).2 =
      [.getDefaultBranchRef "42", .createBranch "42" ⟨"feature", "main"⟩] ∧
    (handleCallTool okApi (mkReq "create_branch"
        (.obj [("project_id", .str "42"), ("branch", .str "feature"),
          ("ref", .str "dev")]))).2 =
      [.createBranch "42" ⟨"feature", "dev"⟩] :=
  ⟨create_branch_defaults_ref_to_default_branch.1 okApi branchArgsNoRef
      ⟨"42", "feature", none⟩ "main" rfl rfl rfl,
    create_branch_defaults_ref_to_default_branch.2.2 okApi
      (.obj [("project_id", .str "42"), ("branch", .str "feature"), ("ref", .str "dev")])
      ⟨"42", "feature", some "dev"⟩ "dev" rfl rfl (by decide)⟩
